import Mathlib

set_option maxHeartbeats 1000000

/-!
Verification development for the conversational analytics gateway
(`backend/src/app`): a shallow embedding in Lean 4 of the query cache and
pattern learner (`services/query_cache.py`), the lexical classifiers,
time-window resolver, rule-based SQL compiler and SQL safety normalizer
(`routes/chat.py` and `utils/sql_generation.py` / `utils/query_detection.py`),
and the `ask` route's control flow with external collaborators modelled as
an oracle.
-/

namespace ChatData

/-! ## Python-style string primitives

All string operations are implemented by structural recursion over the
underlying character lists (the corresponding core `String` functions use
well-founded recursion over byte positions, which the kernel cannot
evaluate). -/

/-- Python `str.lower()` (the repository's vocabulary is ASCII). -/
def pyLower (s : String) : String := String.mk (s.data.map Char.toLower)

def pyUpper (s : String) : String := String.mk (s.data.map Char.toUpper)

/-- Python `str.strip()` with no argument: remove surrounding whitespace. -/
def pyStrip (s : String) : String :=
  String.mk (((s.data.dropWhile Char.isWhitespace).reverse.dropWhile
    Char.isWhitespace).reverse)

/-- Does the char list start with `pat`? -/
def startsWithChars : List Char → List Char → Bool
  | [], _ => true
  | _ :: _, [] => false
  | p :: ps, c :: cs => p == c && startsWithChars ps cs

/-- Python `pat in s` on char lists. -/
def hasSubChars (pat : List Char) : List Char → Bool
  | [] => pat.isEmpty
  | c :: cs => startsWithChars pat (c :: cs) || hasSubChars pat cs

/-- Python substring test `pat in s`. -/
def strContains (s pat : String) : Bool := hasSubChars pat.data s.data

/-- Python `sep.join(xs)`. -/
def pyJoin (sep : String) : List String → String
  | [] => ""
  | a :: as => as.foldl (fun acc x => acc ++ sep ++ x) a

/-- Python `s.endswith(suf)`. -/
def strEndsWith (s suf : String) : Bool :=
  startsWithChars suf.data.reverse s.data.reverse

/-- Left-to-right scanning substitution driver (used for `str.replace` and
the `re.sub` calls).  `att` attempts a match at the head, returning the
replacement and the remaining input; `fuel` bounds the recursion (every
step consumes at least one character, so `length + 1` is exact). -/
def regexSubGo (att : List Char → Option (List Char × List Char)) :
    Nat → List Char → List Char
  | 0, l => l
  | _ + 1, [] => []
  | fuel + 1, c :: cs =>
      match att (c :: cs) with
      | some (repl, rest) => repl ++ regexSubGo att fuel rest
      | none => c :: regexSubGo att fuel cs

def tryLit (pat repl : List Char) (l : List Char) : Option (List Char × List Char) :=
  if pat.isEmpty then none
  else if startsWithChars pat l then some (repl, l.drop pat.length) else none

/-- Python `s.replace(pat, repl)`: non-overlapping left-to-right. -/
def strReplace (s pat repl : String) : String :=
  String.mk (regexSubGo (tryLit pat.data repl.data) (s.data.length + 1) s.data)

def splitSepGo (sep : List Char) : Nat → List Char → List Char → List (List Char)
  | 0, acc, l => [acc.reverse ++ l]
  | _ + 1, acc, [] => [acc.reverse]
  | fuel + 1, acc, c :: cs =>
      if startsWithChars sep (c :: cs) then
        acc.reverse :: splitSepGo sep fuel [] ((c :: cs).drop sep.length)
      else splitSepGo sep fuel (c :: acc) cs

/-- Python `s.split(sep)` for a non-empty separator. -/
def pySplit (s sep : String) : List String :=
  (splitSepGo sep.data (s.data.length + 1) [] s.data).map String.mk

/-! ## Dictionaries as insertion-ordered association lists

Python 3 `dict`s preserve insertion order; assignment to an existing key
keeps its position, assignment to a fresh key appends. -/

def dictFind {α : Type} : List (String × α) → String → Option α
  | [], _ => none
  | (k, v) :: rest, key => if k = key then some v else dictFind rest key

def dictInsert {α : Type} : List (String × α) → String → α → List (String × α)
  | [], key, v => [(key, v)]
  | (k, w) :: rest, key, v =>
      if k = key then (key, v) :: rest else (k, w) :: dictInsert rest key v

def dictErase {α : Type} : List (String × α) → String → List (String × α)
  | [], _ => []
  | (k, w) :: rest, key => if k = key then rest else (k, w) :: dictErase rest key

/-! ## Data model (`schemas.py`) -/

/-- `TableResponse`: ordered columns and rows.  Cell values are modelled as
integers (the aggregate queries of this core return numeric cells). -/
structure Df where
  columns : List String
  rows : List (List Int)
deriving DecidableEq, Repr

/-- `ChatResponse` (also the serialized `response.dict()` payload cached by
the learner). -/
structure ChatResp where
  mode : String
  text : Option String := none
  table : Option Df := none
  chart_path : Option String := none
  query_sql : Option String := none
deriving DecidableEq, Repr

/-! ## `services/query_cache.py` -/

/-- The `QueryCache` dataclass (one cache entry). -/
structure QueryCacheEntry where
  query_hash : String
  original_query : String
  source : String
  mode : String
  sql_query : Option String
  response_data : ChatResp
  timestamp : Int
  hit_count : Nat := 1
deriving DecidableEq, Repr

/-- One record of the `successful_queries` rolling log. -/
structure SuccessRecord where
  query : String
  sql : String
  source : String
  timestamp : Int
deriving DecidableEq, Repr

/-- A value stored in the heterogeneous `pattern_learning` dict: the
per-source lists hold raw phrasings, `successful_queries` holds records. -/
inductive PatternEntry
  | phrase (p : String)
  | success (r : SuccessRecord)
deriving DecidableEq, Repr

/-- The mutable state of `QueryPatternLearner`. -/
structure LearnerState where
  cache : List (String × QueryCacheEntry)
  pattern_learning : List (String × List PatternEntry)
  max_cache_size : Nat
  cache_ttl : Int
deriving DecidableEq, Repr

/-- `QueryPatternLearner.__init__`. -/
def initLearner : LearnerState :=
  { cache := []
    pattern_learning :=
      [("financial_patterns", []), ("device_patterns", []), ("successful_queries", [])]
    max_cache_size := 1000
    cache_ttl := 3600 }

/-- `_hash_query`: MD5 over `f"{query.lower().strip()}:{source}:{mode}"`.
The digest is modelled as the content string itself (MD5 treated as a
collision-free digest), so equal contents give equal keys. -/
def hashQuery (query source mode : String) : String :=
  pyStrip (pyLower query) ++ ":" ++ source ++ ":" ++ mode

/-- `get_cached_response`: a hit (strictly inside the TTL) bumps the hit
counter and returns the stored payload; an expired entry is deleted. -/
def getCachedResponse (st : LearnerState) (query source mode : String) (now : Int) :
    Option ChatResp × LearnerState :=
  let h := hashQuery query source mode
  match dictFind st.cache h with
  | some entry =>
      if now - entry.timestamp < st.cache_ttl then
        let entry' := { entry with hit_count := entry.hit_count + 1 }
        (some entry.response_data, { st with cache := dictInsert st.cache h entry' })
      else
        (none, { st with cache := dictErase st.cache h })
  | none => (none, st)

/-- Python `l[-n:]`. -/
def listTakeLast {α : Type} (n : Nat) (l : List α) : List α := l.drop (l.length - n)

/-- `_learn_pattern`: append the lowered phrasing to the
`f"{source}_patterns"` log when that key exists in the dict (note the dict
was initialized with key `"device_patterns"`), and, when `sql_query` is
truthy, append a record to `successful_queries`; both logs are trimmed to
their last 100 resp. 200 elements. -/
def learnPattern (st : LearnerState) (query source : String) (sql_query : Option String)
    (now : Int) : LearnerState :=
  let qLower := pyLower query
  let patternKey := source ++ "_patterns"
  let pl := st.pattern_learning
  let pl :=
    match dictFind pl patternKey with
    | some entries =>
        let entries := entries ++ [.phrase qLower]
        let entries := if entries.length > 100 then listTakeLast 100 entries else entries
        dictInsert pl patternKey entries
    | none => pl
  let pl :=
    match sql_query with
    | some sqlq =>
        if sqlq = "" then pl
        else
          match dictFind pl "successful_queries" with
          | some entries =>
              let entries := entries ++ [.success ⟨qLower, sqlq, source, now⟩]
              let entries := if entries.length > 200 then listTakeLast 200 entries else entries
              dictInsert pl "successful_queries" entries
          | none => pl
    | none => pl
  { st with pattern_learning := pl }

/-- `min(self.cache.keys(), key=lambda k: self.cache[k].timestamp)`: first
key (in insertion order) with minimal creation timestamp. -/
def oldestFrom (k : String) (ts : Int) : List (String × QueryCacheEntry) → String
  | [] => k
  | (k', e) :: rest =>
      if e.timestamp < ts then oldestFrom k' e.timestamp rest else oldestFrom k ts rest

def oldestKey : List (String × QueryCacheEntry) → Option String
  | [] => none
  | (k, e) :: rest => some (oldestFrom k e.timestamp rest)

/-- `cache_response`: evict the oldest entry when the store is at capacity,
insert the fresh entry, then learn the pattern. -/
def cacheResponse (st : LearnerState) (query source mode : String) (sql_query : Option String)
    (response_data : ChatResp) (now : Int) : LearnerState :=
  let h := hashQuery query source mode
  let cache :=
    if st.cache.length ≥ st.max_cache_size then
      match oldestKey st.cache with
      | some k => dictErase st.cache k
      | none => st.cache
    else st.cache
  let entry : QueryCacheEntry :=
    { query_hash := h, original_query := query, source := source, mode := mode
      sql_query := sql_query, response_data := response_data, timestamp := now }
  let st' := { st with cache := dictInsert cache h entry }
  learnPattern st' query source sql_query now

/-! ## Lexical classifiers (`routes/chat.py` and `utils/query_detection.py`) -/

def financialKeywords : List String :=
  ["order", "orders", "revenue", "sales", "customer", "customers", "payment", "paid",
   "amount", "money", "price", "invoice", "billing", "financial", "transaction"]

def deviceKeywords : List String :=
  ["device", "devices", "sensor", "sensors", "uptime", "online", "offline",
   "status", "location", "iot", "telemetry", "metrics", "monitoring"]

/-- `detect_source_from_query`: keyword score per source, ties default to
`financial`. -/
def detectSourceFromQuery (message : String) : String :=
  let m := pyLower message
  let financialScore := (financialKeywords.filter (fun k => strContains m k)).length
  let deviceScore := (deviceKeywords.filter (fun k => strContains m k)).length
  if financialScore > deviceScore then "financial"
  else if deviceScore > financialScore then "devices"
  else "financial"

/-- `detect_mode_from_query`: chart > table > text keyword priority, else
`auto`. -/
def detectModeFromQuery (message : String) : String :=
  let m := pyLower message
  let chartKeywords := ["chart", "graph", "plot", "visualize", "visualization",
    "show me a chart", "create a graph"]
  let tableKeywords := ["table", "list", "show all", "breakdown", "by location",
    "by customer", "by status", "group by"]
  let textKeywords := ["how many", "count", "total", "sum", "average", "avg",
    "what is", "tell me"]
  if chartKeywords.any (fun k => strContains m k) then "chart"
  else if tableKeywords.any (fun k => strContains m k) then "table"
  else if textKeywords.any (fun k => strContains m k) then "text"
  else "auto"

def aggKeywords : List String :=
  ["how many", "how much", "count", "total", "sum", "average", "avg", "mean", "min", "max",
   "revenue", "sales order", "sales orders", "orders did we get", "orders did we receive",
   "number of orders"]

/-- `needs_sql` from `routes/chat.py` (substring match over `AGG_KEYWORDS`). -/
def chatNeedsSql (message : String) : Bool :=
  aggKeywords.any (fun k => strContains (pyLower message) k)

/-- `is_greeting_or_social` from `utils/query_detection.py`. -/
def isGreetingOrSocial (message : String) : Bool :=
  let m := pyStrip (pyLower message)
  ["thank you", "thanks", "thank", "bye", "goodbye", "hello", "hi", "hey",
   "good morning", "good afternoon", "good evening", "how are you"].any
    (fun k => strContains m k)

/-- `get_greeting_response` from `utils/query_detection.py`. -/
def getGreetingResponse (message : String) : String :=
  let m := pyStrip (pyLower message)
  if strContains m "thank" then
    "You're welcome! Feel free to ask any questions about your data."
  else if strContains m "bye" || strContains m "goodbye" then
    "Goodbye! Have a great day!"
  else
    "Hello! I'm here to help you analyze your data. What would you like to know?"

/-! ## Time-window resolver (`build_time_filter` in `routes/chat.py`)

Wall-clock time is modelled as integer epoch seconds; the produced SQL
fragment is kept structured (`TimePred`) and rendered to the literal string
by `renderTimePred`, with `datetime.strftime('%Y-%m-%d %H:%M:%S')`
implemented by a civil-calendar formatter. -/

inductive TimePred
  | tsGe (cutoff : Int)
  | dayTruncToday
  | triv
deriving DecidableEq, Repr

/-- Civil date (year, month, day) from days since the Unix epoch. -/
def civilFromDays (z0 : Int) : Int × Int × Int :=
  let z := z0 + 719468
  let era := (if z ≥ 0 then z else z - 146096) / 146097
  let doe := z - era * 146097
  let yoe := (doe - doe / 1460 + doe / 36524 - doe / 146096) / 365
  let y := yoe + era * 400
  let doy := doe - (365 * yoe + yoe / 4 - yoe / 100)
  let mp := (5 * doy + 2) / 153
  let d := doy - (153 * mp + 2) / 5 + 1
  let mo := mp + (if mp < 10 then 3 else -9)
  (y + (if mo ≤ 2 then 1 else 0), mo, d)

def pad2 (n : Int) : String := if n < 10 then "0" ++ toString n else toString n

/-- `strftime('%Y-%m-%d %H:%M:%S')` on epoch seconds (separator `sep`
between date and time; `"T"` gives `datetime.isoformat`). -/
def fmtEpoch (sep : String) (t : Int) : String :=
  let days := Int.fdiv t 86400
  let secs := t - days * 86400
  let c := civilFromDays days
  let hh := secs / 3600
  let mm := (secs % 3600) / 60
  let ss := secs % 60
  toString c.1 ++ "-" ++ pad2 c.2.1 ++ "-" ++ pad2 c.2.2 ++ sep ++
    pad2 hh ++ ":" ++ pad2 mm ++ ":" ++ pad2 ss

/-- Render the structured predicate to the SQL fragment of the source. -/
def renderTimePred : TimePred → String
  | .tsGe t => "ts >= '" ++ fmtEpoch " " t ++ "'"
  | .dayTruncToday => "DATE_TRUNC('day', ts) = CURRENT_DATE"
  | .triv => "1=1"

def digitsToNat (ds : List Char) : Nat :=
  ds.foldl (fun a c => a * 10 + (c.toNat - 48)) 0

/-- `re.search(r'(\d+)\s*UNIT[s]?', m)`: leftmost position where a maximal
digit run, optional whitespace and the unit literal match; returns the
captured number. -/
def findNumUnit (unit : List Char) : List Char → Option Nat
  | [] => none
  | c :: cs =>
      if c.isDigit then
        let ds := (c :: cs).takeWhile Char.isDigit
        let rest := ((c :: cs).dropWhile Char.isDigit).dropWhile Char.isWhitespace
        if startsWithChars unit rest then some (digitsToNat ds)
        else findNumUnit unit cs
      else findNumUnit unit cs

/-- The `patterns` table of `build_time_filter`: unit literal, plural name,
unit length in seconds (months approximated as 30 days). -/
def unitTable : List (String × String × Int) :=
  [("second", "seconds", 1), ("minute", "minutes", 60), ("hour", "hours", 3600),
   ("day", "days", 86400), ("week", "weeks", 604800), ("month", "months", 2592000)]

def scanUnits (now : Int) (m : List Char) :
    List (String × String × Int) → Option (TimePred × String)
  | [] => none
  | (lit, name, mult) :: rest =>
      match findNumUnit lit.data m with
      | some n => some (.tsGe (now - (n : Int) * mult), "past " ++ toString n ++ " " ++ name)
      | none => scanUnits now m rest

/-- `build_time_filter` from `routes/chat.py`. -/
def chatBuildTimeFilter (message : String) (now : Int) : TimePred × String :=
  let m := pyLower message
  let rel :=
    if strContains m "past" || strContains m "last" then scanUnits now m.data unitTable
    else none
  match rel with
  | some r => r
  | none =>
      if strContains m "today" then (.dayTruncToday, "today")
      else (.triv, "all time")

/-! ## Rule-based SQL compiler (`build_rule_sql` in `routes/chat.py`) -/

/-- `build_rule_sql` from `routes/chat.py`. -/
def chatBuildRuleSql (message source : String) (now : Int) : Option String :=
  let m := pyLower message
  let timeFilter := renderTimePred (chatBuildTimeFilter message now).1
  if source = "financial" then
    let tbl := "financial_orders"
    let groupByCustomer := strContains m "by customer" || strContains m "per customer"
    let wantsStatusBreakdown := strContains m "status" || strContains m "paid" ||
      strContains m "refunded" || strContains m "cancelled"
    if strContains m "how many" || strContains m "number of orders" ||
        strContains m "orders did we" || (strContains m "count" && strContains m "order") then
      if wantsStatusBreakdown then
        some ("SELECT status, COUNT(*) AS order_count FROM " ++ tbl ++ " WHERE " ++
          timeFilter ++ " GROUP BY status ORDER BY order_count DESC;")
      else if groupByCustomer then
        some ("SELECT customer, COUNT(*) AS order_count FROM " ++ tbl ++ " WHERE " ++
          timeFilter ++ " GROUP BY customer ORDER BY order_count DESC;")
      else
        some ("SELECT COUNT(*) AS order_count FROM " ++ tbl ++ " WHERE " ++ timeFilter ++ ";")
    else if strContains m "revenue" || (strContains m "sum" && strContains m "amount") ||
        (strContains m "total" && strContains m "amount") then
      if groupByCustomer then
        some ("SELECT customer, SUM(amount) AS total_revenue, COUNT(*) AS order_count FROM " ++
          tbl ++ " WHERE " ++ timeFilter ++ " GROUP BY customer ORDER BY total_revenue DESC;")
      else
        some ("SELECT SUM(amount) AS total_revenue, COUNT(*) AS order_count FROM " ++ tbl ++
          " WHERE " ++ timeFilter ++ ";")
    else if (strContains m "average" || strContains m "avg" || strContains m "mean") &&
        (strContains m "order" || strContains m "amount") then
      some ("SELECT AVG(amount) AS average_order_value FROM " ++ tbl ++ " WHERE " ++
        timeFilter ++ ";")
    else if wantsStatusBreakdown then
      some ("SELECT status, COUNT(*) AS order_count FROM " ++ tbl ++ " WHERE " ++
        timeFilter ++ " GROUP BY status ORDER BY order_count DESC;")
    else none
  else if source = "devices" then
    let tbl := "device_metrics"
    if strContains m "average" && (strContains m "uptime" || strContains m "uptime_minutes") then
      some ("SELECT AVG(uptime_minutes) AS average_uptime_minutes FROM " ++ tbl ++ " WHERE " ++
        timeFilter ++ ";")
    else if strContains m "uptime" &&
        (strContains m "by location" || strContains m "per location") then
      some ("SELECT location, AVG(uptime_minutes) AS average_uptime_minutes FROM " ++ tbl ++
        " WHERE " ++ timeFilter ++ " GROUP BY location ORDER BY average_uptime_minutes DESC;")
    else if strContains m "how many" && strContains m "device" then
      some ("SELECT COUNT(DISTINCT device_id) AS device_count FROM " ++ tbl ++ " WHERE " ++
        timeFilter ++ ";")
    else if strContains m "status" || strContains m "online" || strContains m "offline" then
      some ("SELECT status, COUNT(*) AS device_count FROM " ++ tbl ++ " WHERE " ++
        timeFilter ++ " GROUP BY status ORDER BY device_count DESC;")
    else none
  else none

/-! ## `extract_sql` (`routes/chat.py`) -/

def findSubIdx (pat : List Char) : List Char → Option Nat
  | [] => if pat.isEmpty then some 0 else none
  | c :: cs =>
      if startsWithChars pat (c :: cs) then some 0
      else
        match findSubIdx pat cs with
        | some i => some (i + 1)
        | none => none

/-- `extract_sql` from `routes/chat.py`: strip code fences, pick the first
fenced part mentioning `select`, then cut from the first `select`. -/
def chatExtractSql (text : String) : Option String :=
  let cleaned := strReplace (strReplace text "```sql" "```") "```SQL" "```"
  let cleaned :=
    if strContains cleaned "```" then
      match (pySplit cleaned "```").find? (fun p => strContains (pyLower p) "select") with
      | some p => p
      | none => cleaned
    else cleaned
  match findSubIdx "select".data (pyLower cleaned).data with
  | none => none
  | some idx => some (pyStrip (String.mk (cleaned.data.drop idx)))

/-! ## SQL safety normalizer (`normalize_sql` in `routes/chat.py`)

The two `re.sub` INTERVAL rewrites are implemented by a scanning
substitution driver; the fuel argument is an upper bound on the scan length
(every step consumes at least one character). -/

def isWordChar (c : Char) : Bool := c.isAlphanum || c == '_'

def startsWithCIChars : List Char → List Char → Bool
  | [], _ => true
  | _ :: _, [] => false
  | p :: ps, c :: cs => p == c.toLower && startsWithCIChars ps cs

/-- Parse `INTERVAL\s+['"](\d+)\s+(\w+)['"]` (case-insensitive) at the head
of the list; returns the two captures and the remaining input. -/
def parseIntervalCore (l : List Char) : Option (List Char × List Char × List Char) :=
  if startsWithCIChars "interval".data l then
    let r1 := l.drop 8
    if (r1.takeWhile Char.isWhitespace).isEmpty then none
    else
      match r1.dropWhile Char.isWhitespace with
      | q :: r2 =>
          if q == '\'' || q == '"' then
            let ds := r2.takeWhile Char.isDigit
            if ds.isEmpty then none
            else
              let r3 := r2.dropWhile Char.isDigit
              if (r3.takeWhile Char.isWhitespace).isEmpty then none
              else
                let r4 := r3.dropWhile Char.isWhitespace
                let w := r4.takeWhile isWordChar
                if w.isEmpty then none
                else
                  match r4.dropWhile isWordChar with
                  | q2 :: r5 => if q2 == '\'' || q2 == '"' then some (ds, w, r5) else none
                  | [] => none
          else none
      | [] => none
  else none

/-- One attempted match of `INTERVAL\s+['"](\d+)\s+(\w+)['"]` →
`INTERVAL '\1 \2'`. -/
def tryIntervalSub (l : List Char) : Option (List Char × List Char) :=
  match parseIntervalCore l with
  | some (ds, w, rest) => some ("INTERVAL '".data ++ ds ++ [' '] ++ w ++ ['\''], rest)
  | none => none

/-- One attempted match of `CURRENT_TIMESTAMP\s*-\s*INTERVAL\s+['"](\d+)\s+(\w+)['"]`
→ `(CURRENT_TIMESTAMP - INTERVAL '\1 \2')`. -/
def tryCtsSub (l : List Char) : Option (List Char × List Char) :=
  if startsWithCIChars "current_timestamp".data l then
    match (l.drop 17).dropWhile Char.isWhitespace with
    | '-' :: r2 =>
        match parseIntervalCore (r2.dropWhile Char.isWhitespace) with
        | some (ds, w, rest) =>
            some ("(CURRENT_TIMESTAMP - INTERVAL '".data ++ ds ++ [' '] ++ w ++ "')".data, rest)
        | none => none
    | _ => none
  else none

def regexSub (att : List Char → Option (List Char × List Char)) (s : String) : String :=
  String.mk (regexSubGo att (s.data.length + 1) s.data)

/-- Python `sql_text.rsplit(';', 1)[0]`: everything before the last `;`. -/
def beforeLastSemi (s : String) : String :=
  String.mk (((s.data.reverse.dropWhile (fun c => c != ';')).drop 1).reverse)

def mutatingKeywordsPadded : List String :=
  [" update ", " delete ", " insert ", " drop ", " alter "]

/-- `normalize_sql` from `routes/chat.py`: table-name rewrites, the two
DuckDB INTERVAL rewrites, a conditional today-filter injection, then the
mutating-keyword check (Python raises `ValueError`, modelled as
`Except.error`).  The check scans `lower`, which the source captured
before the today-injection; the `tbl` parameter is unused by the source
body. -/
def chatNormalizeSql (sqlText tbl : String) : Except String String :=
  let s1 := strReplace (strReplace sqlText "financial_data" "financial_orders")
    "devices_data" "device_metrics"
  let s2 := regexSub tryIntervalSub s1
  let s3 := regexSub tryCtsSub s2
  let lower := pyLower s3
  let s4 :=
    if strContains lower "today" && !strContains lower "date_trunc('day', ts)" &&
        !strContains lower "current_date" && !strContains lower "interval" then
      if strContains s3 ";" then
        let core := beforeLastSemi s3
        let core :=
          if strContains (pyLower core) " where " then
            core ++ " AND DATE_TRUNC('day', ts) = CURRENT_DATE"
          else core ++ " WHERE DATE_TRUNC('day', ts) = CURRENT_DATE"
        core ++ ";"
      else
        if strContains lower " where " then
          s3 ++ " AND DATE_TRUNC('day', ts) = CURRENT_DATE"
        else s3 ++ " WHERE DATE_TRUNC('day', ts) = CURRENT_DATE"
    else s3
  if mutatingKeywordsPadded.any (fun w => strContains lower w) then
    Except.error "Unsafe SQL detected"
  else Except.ok s4

/-! ## `utils/sql_generation.py` -/

/-- Try `\bKW\s+(\d+)\b` at the head (`prev` is the character before the
head, for the word boundary). -/
def tryKwNum (kw : List Char) (prev : Option Char) (l : List Char) : Option Nat :=
  let boundaryBefore := match prev with | none => true | some c => !isWordChar c
  if boundaryBefore && startsWithChars kw l then
    let r1 := l.drop kw.length
    if (r1.takeWhile Char.isWhitespace).isEmpty then none
    else
      let r2 := r1.dropWhile Char.isWhitespace
      let ds := r2.takeWhile Char.isDigit
      if ds.isEmpty then none
      else
        match r2.dropWhile Char.isDigit with
        | [] => some (digitsToNat ds)
        | c :: _ => if isWordChar c then none else some (digitsToNat ds)
  else none

def boundaryAfter : List Char → Bool
  | [] => true
  | c :: _ => !isWordChar c

/-- Does one of `customers?|orders?|results?` followed by a word boundary
match at the head? -/
def matchesEntity (l : List Char) : Bool :=
  ["customer", "order", "result"].any fun lit =>
    startsWithChars lit.data l &&
      (let r := l.drop lit.data.length
       match r with
       | 's' :: r' => boundaryAfter r'
       | _ => boundaryAfter r)

/-- Try `\b(\d+)\s+(?:customers?|orders?|results?)\b` at the head. -/
def tryNumEntity (prev : Option Char) (l : List Char) : Option Nat :=
  let boundaryBefore := match prev with | none => true | some c => !isWordChar c
  if boundaryBefore then
    let ds := l.takeWhile Char.isDigit
    if ds.isEmpty then none
    else
      let r1 := l.dropWhile Char.isDigit
      if (r1.takeWhile Char.isWhitespace).isEmpty then none
      else if matchesEntity (r1.dropWhile Char.isWhitespace) then some (digitsToNat ds)
      else none
  else none

/-- `re.search` driver tracking the previous character for `\b`. -/
def searchPat {α : Type} (att : Option Char → List Char → Option α) :
    Option Char → List Char → Option α
  | _, [] => none
  | prev, c :: cs =>
      match att prev (c :: cs) with
      | some v => some v
      | none => searchPat att (some c) cs

/-- `extract_limit_number` from `utils/sql_generation.py`. -/
def extractLimitNumber (message : String) : Option Nat :=
  let m := (pyLower message).data
  match searchPat (tryKwNum "top".data) none m with
  | some n => some n
  | none =>
    match searchPat (tryKwNum "first".data) none m with
    | some n => some n
    | none =>
      match searchPat (tryKwNum "limit".data) none m with
      | some n => some n
      | none =>
        match searchPat (tryKwNum "show".data) none m with
        | some n => some n
        | none => searchPat tryNumEntity none m

/-- Days since epoch of a civil date (inverse of `civilFromDays`). -/
def daysFromCivil (y mo d : Int) : Int :=
  let y' := if mo ≤ 2 then y - 1 else y
  let era := (if y' ≥ 0 then y' else y' - 399) / 400
  let yoe := y' - era * 400
  let mp := if mo > 2 then mo - 3 else mo + 9
  let doy := (153 * mp + 2) / 5 + d - 1
  let doe := yoe * 365 + yoe / 4 - yoe / 100 + doy
  era * 146097 + doe - 719468

/-- `build_time_filter` from `utils/sql_generation.py` (fixed named ranges
rendered with `datetime.isoformat()`; evaluation time as epoch seconds). -/
def utilsBuildTimeFilter (message : String) (now : Int) : String × String :=
  let m := pyLower message
  let days := Int.fdiv now 86400
  if strContains m "today" then
    ("ts >= '" ++ fmtEpoch "T" (days * 86400) ++ "'", "today")
  else if strContains m "this week" || strContains m "week" then
    let weekday := (days + 3) % 7
    ("ts >= '" ++ fmtEpoch "T" ((days - weekday) * 86400) ++ "'", "this week")
  else if strContains m "this month" || strContains m "month" then
    let c := civilFromDays days
    ("ts >= '" ++ fmtEpoch "T" (daysFromCivil c.1 c.2.1 1 * 86400) ++ "'", "this month")
  else if strContains m "last 7 days" || strContains m "past week" then
    ("ts >= '" ++ fmtEpoch "T" (now - 7 * 86400) ++ "'", "last 7 days")
  else if strContains m "last 30 days" || strContains m "past month" then
    ("ts >= '" ++ fmtEpoch "T" (now - 30 * 86400) ++ "'", "last 30 days")
  else ("1=1", "all time")

/-- `build_rule_sql` from `utils/sql_generation.py`. -/
def utilsBuildRuleSql (message source : String) (now : Int) : Option String :=
  let m := pyLower message
  let timeFilter := (utilsBuildTimeFilter message now).1
  let limitClause :=
    match extractLimitNumber message with
    | some n => if n ≠ 0 then " LIMIT " ++ toString n else ""
    | none => ""
  if source = "financial" then
    let tbl := "financial_orders"
    let groupByCustomer :=
      strContains m "by customer" || strContains m "per customer" ||
      (strContains m "top" && strContains m "customer") ||
      (strContains m "customer" &&
        (strContains m "breakdown" || strContains m "list" || strContains m "show")) ||
      strContains m "customers by" || strContains m "revenue by customer" ||
      strContains m "revenues by customer" ||
      (strContains m "top" && strContains m "customers") || strContains m "customers with"
    let wantsStatusBreakdown := strContains m "status" || strContains m "paid" ||
      strContains m "refunded" || strContains m "cancelled"
    if strContains m "how many" && strContains m "order" then
      some ("SELECT COUNT(*) AS order_count FROM " ++ tbl ++ " WHERE " ++ timeFilter ++ ";")
    else if strContains m "revenue" || strContains m "sales" || strContains m "income" then
      if groupByCustomer then
        some ("SELECT customer, COALESCE(SUM(amount), 0) AS total_revenue FROM " ++ tbl ++
          " WHERE " ++ timeFilter ++
          " AND amount IS NOT NULL GROUP BY customer ORDER BY total_revenue DESC" ++
          limitClause ++ ";")
      else
        some ("SELECT COALESCE(SUM(amount), 0) AS total_revenue FROM " ++ tbl ++ " WHERE " ++
          timeFilter ++ " AND amount IS NOT NULL;")
    else if (strContains m "average" || strContains m "avg" || strContains m "mean") &&
        (strContains m "order" || strContains m "amount") then
      some ("SELECT AVG(amount) AS average_order_value FROM " ++ tbl ++ " WHERE " ++
        timeFilter ++ ";")
    else if wantsStatusBreakdown then
      some ("SELECT status, COUNT(*) AS order_count FROM " ++ tbl ++ " WHERE " ++ timeFilter ++
        " GROUP BY status ORDER BY order_count DESC" ++ limitClause ++ ";")
    else none
  else if source = "devices" then
    let tbl := "device_metrics"
    if strContains m "average" && (strContains m "uptime" || strContains m "uptime_minutes") then
      some ("SELECT AVG(uptime_minutes) AS average_uptime_minutes FROM " ++ tbl ++ " WHERE " ++
        timeFilter ++ ";")
    else if strContains m "uptime" &&
        (strContains m "by location" || strContains m "per location") then
      some ("SELECT location, AVG(uptime_minutes) AS average_uptime_minutes FROM " ++ tbl ++
        " WHERE " ++ timeFilter ++ " GROUP BY location ORDER BY average_uptime_minutes DESC;")
    else if strContains m "how many" && strContains m "device" then
      some ("SELECT COUNT(DISTINCT device_id) AS device_count FROM " ++ tbl ++ " WHERE " ++
        timeFilter ++ ";")
    else if strContains m "status" || strContains m "online" || strContains m "offline" then
      some ("SELECT status, COUNT(*) AS device_count FROM " ++ tbl ++ " WHERE " ++
        timeFilter ++ " GROUP BY status ORDER BY device_count DESC;")
    else none
  else none

/-- One step of `re.sub(r'\b' + var + r'\b', repl, s, flags=IGNORECASE)`:
scan with the previous original character tracked for the boundaries. -/
def wordSubGo (pat repl : List Char) : Nat → Option Char → List Char → List Char
  | 0, _, l => l
  | _ + 1, _, [] => []
  | fuel + 1, prev, c :: cs =>
      let boundaryBefore := match prev with | none => true | some p => !isWordChar p
      if boundaryBefore && startsWithCIChars pat (c :: cs) &&
          boundaryAfter ((c :: cs).drop pat.length) then
        repl ++ wordSubGo pat repl fuel (((c :: cs).take pat.length).getLast? ) ((c :: cs).drop pat.length)
      else
        c :: wordSubGo pat repl fuel (some c) cs

def wordBoundSub (pat repl s : String) : String :=
  String.mk (wordSubGo pat.data repl.data (s.data.length + 1) none s.data)

/-- `normalize_sql` from `utils/sql_generation.py`: word-boundary table-name
rewrites and semicolon termination — it rejects nothing. -/
def utilsNormalizeSql (sqlText tableName : String) : String :=
  let s := ["orders", "order", "financial_order", "device_metric", "devices", "metrics"].foldl
    (fun acc var => wordBoundSub var tableName acc) sqlText
  let s := pyStrip s
  if strEndsWith s ";" then s else s ++ ";"

/-! ## The `ask` route (`routes/chat.py`, lines 317–520)

The route is modelled as a pure function over a global state (the
module-level `conversation_history` dict plus the `query_learner`), an
oracle giving the responses of the external collaborators (LLM endpoint,
vector store, SQL engine, chart renderer), the wall clock, and the
process string hash used in the cache key.  The returned event list
records, in order, the state mutations and external calls of the run. -/

/-- One message dict of `conversation_history` (optional keys as options). -/
structure Turn where
  role : String
  message : String
  timestamp : Int
  chart_path : Option String := none
  sql : Option String := none
deriving DecidableEq, Repr

/-- The module-level mutable state of `routes/chat.py`. -/
structure GlobalSt where
  conversation_history : List (String × List Turn)
  learner : LearnerState
deriving DecidableEq, Repr

def initGlobalSt : GlobalSt := { conversation_history := [], learner := initLearner }

/-- External collaborators for one request; `none` models the call
raising an exception. -/
structure Oracle where
  schemaContext : String
  intentReply : Option String
  sqlGenReply : Option String
  sqlExec : String → Option Df
  plotPath : String
  ragHits : Option (List (Rat × String))
  ragAnswer : Option String

/-- Observable steps of a run, in order: state mutations and calls that
suspend on an external collaborator. -/
inductive AskEvent
  | histAppendUser
  | cacheLookup
  | cacheHit
  | extSchema
  | extIntentLlm
  | extSqlGenLlm
  | extSqlExec
  | histAppendAssistant
  | cacheStore
  | extRagSearch
  | extRagLlm
deriving DecidableEq, Repr

/-- `ChatRequest` with its schema defaults. -/
structure ChatReq where
  source : String
  message : String
  mode : String := "auto"
  top_k : Nat := 6
  session_id : String := "default_session"
deriving DecidableEq, Repr

inductive AskResult
  | ok (resp : ChatResp)
  | failed (detail : String)
deriving DecidableEq, Repr

def sourceTables : List (String × String) :=
  [("financial", "financial_orders"), ("devices", "device_metrics")]

/-- `f"{val:,.2f}"` for an integer value (comma thousands separators). -/
def intCommaFmt (v : Int) : String :=
  let ds := (toString v.natAbs).data
  let revOut := (ds.reverse.enum.map
    (fun p => if p.1 ≠ 0 && p.1 % 3 == 0 then [',', p.2] else [p.2])).flatten
  (if v < 0 then "-" else "") ++ String.mk revOut.reverse

/-- `_format_sql_result` from `routes/chat.py` (integer cells). -/
def formatSqlResult (df : Df) (question : String) : String :=
  let q := pyLower question
  if df.rows.length = 1 && df.columns.length = 1 then
    let val := (df.rows.headD []).headD 0
    if ["how many", "count", "number of"].any (fun k => strContains q k) then
      "Count: " ++ toString val
    else if ["revenue", "total", "sum"].any (fun k => strContains q k) then
      "Total: $" ++ intCommaFmt val ++ ".00"
    else if ["average", "avg", "mean"].any (fun k => strContains q k) then
      "Average: " ++ toString val ++ ".00"
    else "Result: " ++ toString val
  else if df.rows.length ≤ 10 then
    pyJoin "\n" (("Found " ++ toString df.rows.length ++ " results:") ::
      df.rows.map (fun row =>
        if df.columns.length = 2 then
          "• " ++ toString (row.headD 0) ++ ": " ++ toString (row.getD 1 0)
        else
          "• \x7b" ++ pyJoin ", "
            ((df.columns.zip row).map (fun p => "'" ++ p.1 ++ "': " ++ toString p.2)) ++ "\x7d"))
  else
    "Query returned " ++ toString df.rows.length ++ " rows with columns: " ++
      pyJoin ", " df.columns ++ ". Use table view for details."

/-- `_rag_with_schema_context`: the retrieval path.  Every failure is
caught and folded into a canned text response; it writes neither history
nor cache.  Returns the response and the events of the path. -/
def ragWithSchemaContext (oracle : Oracle) (source message : String) :
    ChatResp × List AskEvent :=
  let errResp : ChatResp :=
    { mode := "text"
      text := some ("I encountered an error processing your query about " ++ source ++
        " data. Please try rephrasing your question or ask about specific metrics I can calculate.") }
  match oracle.ragHits with
  | none => (errResp, [.extRagSearch])
  | some hits =>
      if hits.isEmpty || hits.all (fun h => h.1 < (1 : Rat) / 2) then
        ({ mode := "text",
           text := some ("I don't have enough relevant information about '" ++ message ++
             "' in the " ++ source ++
             " data. Could you try rephrasing your question or ask about specific metrics I can calculate?") },
         [.extRagSearch])
      else
        match oracle.ragAnswer with
        | none => (errResp, [.extRagSearch, .extRagLlm])
        | some answer =>
            if (pyStrip answer).length < 20 || strContains answer "I don't have" then
              ({ mode := "text",
                 text := some ("I don't have sufficient relevant information about '" ++ message ++
                   "' in the " ++ source ++
                   " data. Try asking about specific metrics or data points I can calculate.") },
               [.extRagSearch, .extRagLlm])
            else ({ mode := "text", text := some answer }, [.extRagSearch, .extRagLlm])

/-- The pure prefix of `ask` up to and including the cache check (lines
320–349): session bootstrap, user-message append and trim to the last 10,
source auto-detection, context-sensitive cache key, cache lookup.
`pyHash` is the process's string hash (already reduced to a `Nat`).
Returns the state at the first external-call suspension point. -/
def askPrefix (pyHash : String → Nat) (req : ChatReq) (now : Int) (st : GlobalSt) :
    GlobalSt × List AskEvent × String × String × Option ChatResp :=
  let sessionId := req.session_id
  let hist0 := (dictFind st.conversation_history sessionId).getD []
  let hist1 := hist0 ++ [{ role := "user", message := req.message, timestamp := now }]
  let hist2 := if hist1.length > 10 then listTakeLast 10 hist1 else hist1
  let conv1 := dictInsert st.conversation_history sessionId hist2
  let actualSource := if req.source = "auto" then detectSourceFromQuery req.message else req.source
  let recentContext := pyJoin " " ((listTakeLast 3 hist2).map (·.message))
  let cacheKey := req.message ++ "|" ++ actualSource ++ "|" ++ req.mode ++ "|" ++
    toString (pyHash recentContext % 10000)
  let (cached, learner1) := getCachedResponse st.learner cacheKey actualSource req.mode now
  ({ conversation_history := conv1, learner := learner1 },
   [.histAppendUser, .cacheLookup], actualSource, cacheKey, cached)

/-- Lines 424–509 of `routes/chat.py`: format a successful SQL result by
mode, append the assistant turn, write the cache (which also learns the
pattern), and return the response. -/
def formatAndStore (req : ChatReq) (detectedMode actualSource cacheKey sqlText : String)
    (df : Df) (oracle : Oracle) (now : Int) (st : GlobalSt) :
    ChatResp × GlobalSt × List AskEvent :=
  let sessionId := req.session_id
  let hist := (dictFind st.conversation_history sessionId).getD []
  let store := fun (resp : ChatResp) (mode : String) (turn : Turn) =>
    ({ conversation_history := dictInsert st.conversation_history sessionId (hist ++ [turn]),
       learner := cacheResponse st.learner cacheKey actualSource mode (some sqlText) resp now } : GlobalSt)
  let wantsChart := detectedMode = "chart"
  if detectedMode = "chart" || wantsChart then
    if df.columns.length ≥ 2 && df.rows.length > 0 then
      let path := oracle.plotPath
      let chartFilename := if strContains path "/" then (pySplit path "/").getLastD path else path
      let response : ChatResp :=
        { mode := "chart", chart_path := some chartFilename, query_sql := some sqlText }
      (response,
       store response "chart"
         { role := "assistant",
           message := "Generated chart from data with " ++ toString df.rows.length ++ " records",
           timestamp := now, chart_path := some chartFilename, sql := some sqlText },
       [.histAppendAssistant, .cacheStore])
    else
      let summary := formatSqlResult df req.message
      let response : ChatResp :=
        { mode := "text"
          text := some ("Insufficient data for chart visualization. " ++ summary)
          query_sql := some sqlText }
      (response,
       store response "text"
         { role := "assistant", message := response.text.getD "", timestamp := now },
       [.histAppendAssistant, .cacheStore])
  else if detectedMode = "table" && df.rows.length > 0 then
    let response : ChatResp := { mode := "table", table := some df, query_sql := some sqlText }
    (response,
     store response "table"
       { role := "assistant",
         message := "Retrieved " ++ toString df.rows.length ++ " records in table format",
         timestamp := now },
     [.histAppendAssistant, .cacheStore])
  else if detectedMode = "table" && df.rows.length = 0 then
    let response : ChatResp :=
      { mode := "text"
        text := some "No data found for the specified criteria."
        query_sql := some sqlText }
    (response,
     store response "text"
       { role := "assistant", message := response.text.getD "", timestamp := now },
     [.histAppendAssistant, .cacheStore])
  else if df.rows.length = 0 then
    let response : ChatResp :=
      { mode := "text"
        text := some "No data found for the specified criteria."
        query_sql := some sqlText }
    (response,
     store response "text"
       { role := "assistant", message := response.text.getD "", timestamp := now },
     [.histAppendAssistant, .cacheStore])
  else
    let summary := formatSqlResult df req.message
    let response : ChatResp := { mode := "text", text := some summary, query_sql := some sqlText }
    (response,
     store response "text"
       { role := "assistant", message := summary, timestamp := now },
     [.histAppendAssistant, .cacheStore])

/-- Execute the compiled SQL and format (lines 421–514): a raising SQL
engine falls back to the retrieval path, which writes nothing. -/
def runSqlAndFormat (oracle : Oracle) (req : ChatReq)
    (detectedMode actualSource cacheKey sqlText : String) (now : Int) (st : GlobalSt)
    (evs : List AskEvent) : AskResult × GlobalSt × List AskEvent :=
  match oracle.sqlExec sqlText with
  | none =>
      let rr := ragWithSchemaContext oracle actualSource req.message
      (.ok rr.1, st, evs ++ [.extSqlExec] ++ rr.2)
  | some df =>
      let ff := formatAndStore req detectedMode actualSource cacheKey sqlText df oracle now st
      (.ok ff.1, ff.2.1, evs ++ [.extSqlExec] ++ ff.2.2)

/-- The cache-miss continuation of `ask` (lines 351–517): schema retrieval,
mode detection, intent resolution, the SQL path (rule compiler, else
LLM generation through the safety normalizer) and the retrieval path. -/
def askMissBranch (oracle : Oracle) (req : ChatReq) (now : Int) (st1 : GlobalSt)
    (ev1 : List AskEvent) (actualSource cacheKey : String) :
    AskResult × GlobalSt × List AskEvent :=
  let ev2 := ev1 ++ [.extSchema]
  let detectedMode := if req.mode = "auto" then detectModeFromQuery req.message else req.mode
  let modeHint0 := if chatNeedsSql req.message then "SQL" else "RAG"
  let modeHint :=
    match oracle.intentReply with
    | some r => if strContains (pyUpper r) "SQL" then "SQL" else modeHint0
    | none => modeHint0
  let ev3 := ev2 ++ [.extIntentLlm]
  if modeHint = "SQL" then
    match dictFind sourceTables actualSource with
    | none => (.failed "KeyError", st1, ev3)
    | some tbl =>
      match chatBuildRuleSql req.message actualSource now with
      | some sqlText =>
          runSqlAndFormat oracle req detectedMode actualSource cacheKey sqlText now st1 ev3
      | none =>
          let ev4 := ev3 ++ [.extSqlGenLlm]
          match oracle.sqlGenReply with
          | none => (.failed "LLM error during SQL generation", st1, ev4)
          | some raw =>
              let sqlText0 := (chatExtractSql raw).getD raw
              match chatNormalizeSql sqlText0 tbl with
              | .error e => (.failed e, st1, ev4)
              | .ok sqlText =>
                  runSqlAndFormat oracle req detectedMode actualSource cacheKey sqlText now st1 ev4
  else
    let rr := ragWithSchemaContext oracle actualSource req.message
    (.ok rr.1, st1, ev3 ++ rr.2)

/-- `ask` from `routes/chat.py` (lines 317–520). -/
def ask (pyHash : String → Nat) (oracle : Oracle) (req : ChatReq) (now : Int) (st : GlobalSt) :
    AskResult × GlobalSt × List AskEvent :=
  let (st1, ev1, actualSource, cacheKey, cached) := askPrefix pyHash req now st
  match cached with
  | some payload => (.ok payload, st1, ev1 ++ [.cacheHit])
  | none => askMissBranch oracle req now st1 ev1 actualSource cacheKey

/-! ## Concrete fixtures used by the claim theorems -/

def payloadFx : ChatResp := { mode := "text", text := some "hello" }

/-- A deterministic run's oracle: the intent LLM call fails (the heuristic
decides), the SQL engine returns a single-cell `order_count` table. -/
def orcCount (n : Int) : Oracle :=
  { schemaContext := ""
    intentReply := none
    sqlGenReply := none
    sqlExec := fun _ => some { columns := ["order_count"], rows := [[n]] }
    plotPath := ""
    ragHits := some []
    ragAnswer := none }

def reqHMO : ChatReq := { source := "financial", message := "how many orders", mode := "text" }

def reqGreet : ChatReq :=
  { source := "financial", message := "hi, how many orders", mode := "text" }

/-- First `ask` call of the repeated-request scenario. -/
def c1Run1 (H : String → Nat) (n : Int) : AskResult × GlobalSt × List AskEvent :=
  ask H (orcCount n) reqHMO 0 initGlobalSt

/-- Second, identical `ask` call, 10 seconds later (well inside the TTL). -/
def c1Run2 (H : String → Nat) (n : Int) : AskResult × GlobalSt × List AskEvent :=
  ask H (orcCount n) reqHMO 10 (c1Run1 H n).2.1

def c1Sql : String := "SELECT COUNT(*) AS order_count FROM financial_orders WHERE 1=1;"

def c1Resp (n : Int) : ChatResp :=
  { mode := "text", text := some ("Count: " ++ toString n), query_sql := some c1Sql }

/-- The last-3-turn context at the first call's cache-key computation. -/
def c1Ctx1 : String := "how many orders"

/-- The last-3-turn context at the second call's cache-key computation:
the first call appended the user message and the assistant reply. -/
def c1Ctx2 (n : Int) : String :=
  "how many orders" ++ " " ++ ("Count: " ++ toString n) ++ " " ++ "how many orders"

def c1Key1 (H : String → Nat) : String :=
  "how many orders" ++ "|" ++ "financial" ++ "|" ++ "text" ++ "|" ++ toString (H c1Ctx1 % 10000)

def c1Key2 (H : String → Nat) (n : Int) : String :=
  "how many orders" ++ "|" ++ "financial" ++ "|" ++ "text" ++ "|" ++
    toString (H (c1Ctx2 n) % 10000)

def c1Hash1 (H : String → Nat) : String := hashQuery (c1Key1 H) "financial" "text"

def c1Hash2 (H : String → Nat) (n : Int) : String := hashQuery (c1Key2 H n) "financial" "text"

def c1Entry (H : String → Nat) (n : Int) : QueryCacheEntry :=
  { query_hash := c1Hash1 H, original_query := c1Key1 H, source := "financial", mode := "text",
    sql_query := some c1Sql, response_data := c1Resp n, timestamp := 0 }

/-- The entry `cache_response` constructs. -/
def mkEntryFx (src mode : String) (p : ChatResp) (a : String × Int) : QueryCacheEntry :=
  { query_hash := hashQuery a.1 src mode, original_query := a.1, source := src, mode := mode,
    sql_query := none, response_data := p, timestamp := a.2 }

/-- Insert a sequence of (query, creation time) pairs through
`cache_response` with fixed source/mode/payload: the bounded-eviction
scenario harness. -/
def insertSeq (st : LearnerState) (src mode : String) (p : ChatResp) :
    List (String × Int) → LearnerState
  | [] => st
  | (q, t) :: rest => insertSeq (cacheResponse st q src mode none p t) src mode p rest

/-- No `cacheStore` event occurs before the first completed `sql.query`
call in the trace. -/
def noStoreBeforeExec (tr : List AskEvent) : Bool :=
  !(tr.takeWhile (fun e => e != AskEvent.extSqlExec)).contains AskEvent.cacheStore

/-! # Helper lemmas

Association-list dictionary lemmas, learner-state projections, and
substring lemmas shared by the claim theorems. -/

theorem dictFind_single_ne {α : Type} {k1 k2 : String} (v : α) (h : ¬ k1 = k2) :
    dictFind [(k1, v)] k2 = none := by
  simp [dictFind, h]

theorem dictFind_insert_self {α : Type} (l : List (String × α)) (k : String) (v : α) :
    dictFind (dictInsert l k v) k = some v := by
  induction l with
  | nil => simp [dictInsert, dictFind]
  | cons hd tl ih =>
      obtain ⟨k0, w⟩ := hd
      by_cases h : k0 = k
      · simp [dictInsert, dictFind, h]
      · simp [dictInsert, dictFind, h, ih]

theorem dictFind_insert_ne {α : Type} (l : List (String × α)) {k k' : String} (v : α)
    (h : ¬ k' = k) : dictFind (dictInsert l k v) k' = dictFind l k' := by
  induction l with
  | nil =>
      simp only [dictInsert, dictFind]
      rw [if_neg (fun hh => h hh.symm)]
  | cons hd tl ih =>
      obtain ⟨k0, w⟩ := hd
      by_cases hk : k0 = k
      · subst hk
        simp only [dictInsert, if_pos rfl, dictFind]
        rw [if_neg (fun hh => h hh.symm), if_neg (fun hh => h hh.symm)]
      · simp only [dictInsert, if_neg hk, dictFind]
        by_cases hk' : k0 = k' <;> simp [hk', ih]

theorem dictFind_erase_ne {α : Type} (l : List (String × α)) {k k' : String}
    (h : ¬ k' = k) : dictFind (dictErase l k) k' = dictFind l k' := by
  induction l with
  | nil => simp [dictErase]
  | cons hd tl ih =>
      obtain ⟨k0, w⟩ := hd
      by_cases hk : k0 = k
      · subst hk
        have he : dictErase ((k0, w) :: tl) k0 = tl := by simp [dictErase]
        rw [he]
        simp only [dictFind]
        rw [if_neg (fun hh : k0 = k' => h hh.symm)]
      · simp only [dictErase, if_neg hk, dictFind]
        by_cases hk' : k0 = k' <;> simp [hk', ih]

theorem dictFind_append {α : Type} (l₁ l₂ : List (String × α)) (k : String) :
    dictFind (l₁ ++ l₂) k =
      (match dictFind l₁ k with
       | some v => some v
       | none => dictFind l₂ k) := by
  induction l₁ with
  | nil => simp [dictFind]
  | cons hd tl ih =>
      obtain ⟨k0, w⟩ := hd
      by_cases hk : k0 = k <;> simp [dictFind, hk, ih]

theorem dictFind_eq_none_of_not_mem {α : Type} (l : List (String × α)) (k : String)
    (h : k ∉ l.map Prod.fst) : dictFind l k = none := by
  induction l with
  | nil => rfl
  | cons hd tl ih =>
      obtain ⟨k0, w⟩ := hd
      simp only [List.map, List.mem_cons] at h
      push_neg at h
      simp only [dictFind, ih h.2]
      rw [if_neg (fun hh => h.1 hh.symm)]

theorem dictFind_isSome_of_mem {α : Type} (l : List (String × α)) (k : String)
    (h : k ∈ l.map Prod.fst) : (dictFind l k).isSome := by
  induction l with
  | nil => simp at h
  | cons hd tl ih =>
      obtain ⟨k0, w⟩ := hd
      by_cases hk : k0 = k
      · simp [dictFind, hk]
      · simp only [List.map, List.mem_cons] at h
        rcases h with h | h
        · exact absurd h.symm hk
        · simp [dictFind, hk, ih h]

theorem dictInsert_fresh {α : Type} (l : List (String × α)) (k : String) (v : α)
    (h : dictFind l k = none) : dictInsert l k v = l ++ [(k, v)] := by
  induction l with
  | nil => rfl
  | cons hd tl ih =>
      obtain ⟨k0, w⟩ := hd
      by_cases hk : k0 = k
      · simp [dictFind, hk] at h
      · simp only [dictFind, if_neg hk] at h
        simp [dictInsert, hk, ih h]

theorem dictErase_head {α : Type} (k : String) (v : α) (tl : List (String × α)) :
    dictErase ((k, v) :: tl) k = tl := by
  simp [dictErase]

theorem dictErase_self_of_not_mem_tail {α : Type} (l : List (String × α)) (k : String)
    (hnd : (l.map Prod.fst).Nodup) : dictFind (dictErase l k) k = none := by
  induction l with
  | nil => rfl
  | cons hd tl ih =>
      obtain ⟨k0, w⟩ := hd
      simp only [List.map, List.nodup_cons] at hnd
      by_cases hk : k0 = k
      · subst hk
        simp only [dictErase, if_pos rfl]
        exact dictFind_eq_none_of_not_mem tl k0 hnd.1
      · simp [dictErase, dictFind, hk, ih hnd.2]

theorem dictInsert_mem_keys {α : Type} (l : List (String × α)) (k x : String) (v : α)
    (h : x ∈ (dictInsert l k v).map Prod.fst) : x ∈ l.map Prod.fst ∨ x = k := by
  induction l with
  | nil => simp_all [dictInsert]
  | cons hd tl ih =>
      obtain ⟨k0, w⟩ := hd
      by_cases hk : k0 = k
      · simp only [dictInsert, if_pos hk] at h
        simp only [List.map, List.mem_cons] at h ⊢
        rcases h with h | h
        · exact Or.inr h
        · exact Or.inl (Or.inr h)
      · simp only [dictInsert, if_neg hk] at h
        simp only [List.map, List.mem_cons] at h ⊢
        rcases h with h | h
        · exact Or.inl (Or.inl h)
        · rcases ih h with h' | h'
          · exact Or.inl (Or.inr h')
          · exact Or.inr h'

theorem dictInsert_keys_nodup {α : Type} (l : List (String × α)) (k : String) (v : α)
    (hnd : (l.map Prod.fst).Nodup) : ((dictInsert l k v).map Prod.fst).Nodup := by
  induction l with
  | nil => simp [dictInsert]
  | cons hd tl ih =>
      obtain ⟨k0, w⟩ := hd
      simp only [List.map, List.nodup_cons] at hnd
      by_cases hk : k0 = k
      · subst hk
        simp only [dictInsert, if_pos rfl]
        simp only [List.map, List.nodup_cons]
        exact ⟨hnd.1, hnd.2⟩
      · simp only [dictInsert, if_neg hk]
        simp only [List.map, List.nodup_cons]
        refine ⟨fun hmem => ?_, ih hnd.2⟩
        rcases dictInsert_mem_keys tl k k0 v hmem with h' | h'
        · exact hnd.1 h'
        · exact hk h'

theorem dictErase_keys_sublist {α : Type} (l : List (String × α)) (k : String) :
    ((dictErase l k).map Prod.fst).Sublist (l.map Prod.fst) := by
  induction l with
  | nil => simp [dictErase]
  | cons hd tl ih =>
      obtain ⟨k0, w⟩ := hd
      by_cases hk : k0 = k
      · simp only [dictErase, if_pos hk, List.map]
        exact List.sublist_cons_self k0 (tl.map Prod.fst)
      · simp only [dictErase, if_neg hk, List.map]
        exact ih.cons₂ k0

/-! Learner-state projection lemmas. -/

theorem learnPattern_cache (st : LearnerState) (q s : String) (sq : Option String) (t : Int) :
    (learnPattern st q s sq t).cache = st.cache := rfl

theorem learnPattern_max (st : LearnerState) (q s : String) (sq : Option String) (t : Int) :
    (learnPattern st q s sq t).max_cache_size = st.max_cache_size := rfl

theorem learnPattern_ttl (st : LearnerState) (q s : String) (sq : Option String) (t : Int) :
    (learnPattern st q s sq t).cache_ttl = st.cache_ttl := rfl

theorem cacheResponse_cache (st : LearnerState) (q s m : String) (sq : Option String)
    (p : ChatResp) (t : Int) :
    (cacheResponse st q s m sq p t).cache =
      dictInsert
        (if st.cache.length ≥ st.max_cache_size then
          match oldestKey st.cache with
          | some k => dictErase st.cache k
          | none => st.cache
        else st.cache)
        (hashQuery q s m)
        { query_hash := hashQuery q s m, original_query := q, source := s, mode := m,
          sql_query := sq, response_data := p, timestamp := t } := rfl

theorem cacheResponse_max (st : LearnerState) (q s m : String) (sq : Option String)
    (p : ChatResp) (t : Int) :
    (cacheResponse st q s m sq p t).max_cache_size = st.max_cache_size := rfl

theorem cacheResponse_ttl (st : LearnerState) (q s m : String) (sq : Option String)
    (p : ChatResp) (t : Int) :
    (cacheResponse st q s m sq p t).cache_ttl = st.cache_ttl := rfl

theorem getCachedResponse_miss (st : LearnerState) (q s m : String) (now : Int)
    (h : dictFind st.cache (hashQuery q s m) = none) :
    getCachedResponse st q s m now = (none, st) := by
  simp [getCachedResponse, h]

theorem getCachedResponse_pattern (st : LearnerState) (q s m : String) (now : Int) :
    (getCachedResponse st q s m now).2.pattern_learning = st.pattern_learning := by
  simp only [getCachedResponse]
  split
  · split <;> rfl
  · rfl

/-- Store-then-get inside the TTL under an equal cache key. -/
theorem cache_store_then_get_hit (st : LearnerState) (q q' src mode : String)
    (sq : Option String) (p : ChatResp) (t0 d : Int)
    (hh : hashQuery q src mode = hashQuery q' src mode) (hd : d < st.cache_ttl) :
    (getCachedResponse (cacheResponse st q src mode sq p t0) q' src mode (t0 + d)).1 = some p := by
  have hfind : dictFind (cacheResponse st q src mode sq p t0).cache (hashQuery q' src mode) =
      some { query_hash := hashQuery q src mode, original_query := q, source := src,
             mode := mode, sql_query := sq, response_data := p, timestamp := t0 } := by
    rw [cacheResponse_cache, ← hh]
    exact dictFind_insert_self _ _ _
  simp only [getCachedResponse, hfind, cacheResponse_ttl]
  have harith : t0 + d - t0 = d := by ring
  rw [harith, if_pos hd]

/-- Store-then-get at or beyond the TTL: the lookup misses and purges. -/
theorem cache_store_then_get_expired (st : LearnerState) (q src mode : String)
    (sq : Option String) (p : ChatResp) (t0 d : Int)
    (hnd : (st.cache.map Prod.fst).Nodup) (hd : st.cache_ttl ≤ d) :
    (getCachedResponse (cacheResponse st q src mode sq p t0) q src mode (t0 + d)).1 = none ∧
    dictFind (getCachedResponse (cacheResponse st q src mode sq p t0) q src mode (t0 + d)).2.cache
      (hashQuery q src mode) = none := by
  have hfind : dictFind (cacheResponse st q src mode sq p t0).cache (hashQuery q src mode) =
      some { query_hash := hashQuery q src mode, original_query := q, source := src,
             mode := mode, sql_query := sq, response_data := p, timestamp := t0 } := by
    rw [cacheResponse_cache]
    exact dictFind_insert_self _ _ _
  have hnd' : ((cacheResponse st q src mode sq p t0).cache.map Prod.fst).Nodup := by
    rw [cacheResponse_cache]
    apply dictInsert_keys_nodup
    split
    · split
      · exact hnd.sublist (dictErase_keys_sublist _ _)
      · exact hnd
    · exact hnd
  have harith : t0 + d - t0 = d := by ring
  have hcond : ¬ (t0 + d - t0 < st.cache_ttl) := by rw [harith]; exact not_lt.mpr hd
  constructor
  · simp only [getCachedResponse, hfind, cacheResponse_ttl]
    rw [if_neg hcond]
  · simp only [getCachedResponse, hfind, cacheResponse_ttl]
    rw [if_neg hcond]
    exact dictErase_self_of_not_mem_tail _ _ hnd'

/-! Substring lemmas. -/

theorem startsWithChars_append (p l₁ l₂ : List Char)
    (h : startsWithChars p l₁ = true) : startsWithChars p (l₁ ++ l₂) = true := by
  induction p generalizing l₁ with
  | nil => rfl
  | cons c cs ih =>
      cases l₁ with
      | nil => simp [startsWithChars] at h
      | cons d ds =>
          simp only [startsWithChars, Bool.and_eq_true] at h
          simp only [List.cons_append, startsWithChars, Bool.and_eq_true]
          exact ⟨h.1, ih ds h.2⟩

theorem hasSubChars_nil (l : List Char) : hasSubChars [] l = true := by
  cases l <;> simp [hasSubChars, startsWithChars, List.isEmpty]

theorem hasSubChars_append_left (pat l₁ l₂ : List Char)
    (h : hasSubChars pat l₁ = true) : hasSubChars pat (l₁ ++ l₂) = true := by
  induction l₁ with
  | nil =>
      cases pat with
      | nil => exact hasSubChars_nil l₂
      | cons c cs => simp [hasSubChars, List.isEmpty] at h
  | cons c cs ih =>
      simp only [hasSubChars, Bool.or_eq_true] at h
      simp only [List.cons_append, hasSubChars, Bool.or_eq_true]
      rcases h with h | h
      · exact Or.inl (by simpa using startsWithChars_append pat (c :: cs) l₂ h)
      · exact Or.inr (ih h)

theorem str_data_append (s t : String) : (s ++ t).data = s.data ++ t.data := by
  cases s; cases t; rfl

theorem strContains_append_left (s t pat : String)
    (h : strContains s pat = true) : strContains (s ++ t) pat = true := by
  unfold strContains at h ⊢
  rw [str_data_append]
  exact hasSubChars_append_left _ _ _ h

/-! # Claim theorems -/

/-- **C2** (code bug): the safety gate in `normalize_sql` checks only the
space-padded substrings `' update '`, `' delete '`, `' insert '`,
`' drop '`, `' alter '`, so `DROP TABLE financial_orders` — where `drop`
is the first word and has no leading space — passes the normalizer
unrejected and unmodified and reaches execution; a mid-statement
space-padded `drop` is rejected, and the `utils/sql_generation.py`
variant of `normalize_sql` rejects nothing at all.  This contradicts the
claim that any statement containing the whole word `drop` is rejected
before execution. -/
theorem c2_mutating_keyword_gate_misses_initial_drop :
    chatNormalizeSql "DROP TABLE financial_orders" "financial_orders" =
      Except.ok "DROP TABLE financial_orders" ∧
    chatNormalizeSql "SELECT a FROM financial_orders WHERE drop AND b" "financial_orders" =
      Except.error "Unsafe SQL detected" ∧
    utilsNormalizeSql "DROP TABLE financial_orders" "financial_orders" =
      "DROP TABLE financial_orders;" :=
  ⟨rfl, rfl, rfl⟩

/-- **C6** (code bug, failing input): `_learn_pattern` with
`source = "devices"` computes the dict key `"devices_patterns"`, but the
dict was initialized with key `"device_patterns"`, so the device phrasing
log is never written (it stays empty) while the successful-query record
is still appended; the financial phrasing log works as described. -/
theorem c6_devices_phrasing_log_never_written :
    (dictFind (learnPattern initLearner "show device status" "devices"
        (some "SELECT COUNT(*) FROM device_metrics;") 42).pattern_learning
      "device_patterns" = some []) ∧
    (dictFind (learnPattern initLearner "show device status" "devices"
        (some "SELECT COUNT(*) FROM device_metrics;") 42).pattern_learning
      "devices_patterns" = none) ∧
    (dictFind (learnPattern initLearner "show device status" "devices"
        (some "SELECT COUNT(*) FROM device_metrics;") 42).pattern_learning
      "successful_queries" = some [.success
        { query := "show device status", sql := "SELECT COUNT(*) FROM device_metrics;",
          source := "devices", timestamp := 42 }]) ∧
    (dictFind (learnPattern initLearner "total revenue" "financial"
        (some "SELECT 1;") 7).pattern_learning
      "financial_patterns" = some [.phrase "total revenue"]) := by
  refine ⟨by decide, by decide, by decide, by decide⟩

/-- **C4** (counterexample): an entry created at time 0 and looked up at
time 3600 satisfies "now minus creation does not exceed the TTL"
(3600 ≤ 3600), yet `get_cached_response` returns absent and purges the
entry — the code's TTL test is strict (`<`), not `≤`. -/
theorem c4_exact_ttl_boundary_counterexample :
    ((3600 : Int) - 0 ≤ initLearner.cache_ttl) ∧
    dictFind (cacheResponse initLearner "q" "financial" "text" none payloadFx 0).cache
      (hashQuery "q" "financial" "text") ≠ none ∧
    (getCachedResponse (cacheResponse initLearner "q" "financial" "text" none payloadFx 0)
        "q" "financial" "text" 3600).1 = none ∧
    dictFind (getCachedResponse (cacheResponse initLearner "q" "financial" "text" none payloadFx 0)
        "q" "financial" "text" 3600).2.cache (hashQuery "q" "financial" "text") = none := by
  refine ⟨by decide, by decide, by decide, by decide⟩

/-- **C4** (amended): a lookup returns the stored entry iff the key is
present and now minus the creation timestamp is *strictly below* the TTL;
an entry found at or beyond the TTL is actively deleted, not merely
skipped; consequently an entry inserted at `t0` is returned at
`t0 + ttl - 1` and absent (and purged) at `t0 + ttl` and `t0 + ttl + 1`. -/
theorem c4_ttl_strict_amended (st : LearnerState) (q src mode : String) (sq : Option String)
    (p : ChatResp) (t0 d : Int) (hnd : (st.cache.map Prod.fst).Nodup) :
    (d < st.cache_ttl →
      (getCachedResponse (cacheResponse st q src mode sq p t0) q src mode (t0 + d)).1 = some p) ∧
    (st.cache_ttl ≤ d →
      (getCachedResponse (cacheResponse st q src mode sq p t0) q src mode (t0 + d)).1 = none ∧
      dictFind (getCachedResponse (cacheResponse st q src mode sq p t0) q src mode
          (t0 + d)).2.cache (hashQuery q src mode) = none) :=
  ⟨fun hd => cache_store_then_get_hit st q q src mode sq p t0 d rfl hd,
   fun hd => cache_store_then_get_expired st q src mode sq p t0 d hnd hd⟩

/-- Witness for `c4_ttl_strict_amended` at ttl = 3600: present at
`t0 + 3599`, absent at `t0 + 3600`. -/
theorem c4_ttl_strict_amended_witness :
    (getCachedResponse (cacheResponse initLearner "q" "financial" "text" none payloadFx 100)
        "q" "financial" "text" (100 + 3599)).1 = some payloadFx ∧
    (getCachedResponse (cacheResponse initLearner "q" "financial" "text" none payloadFx 100)
        "q" "financial" "text" (100 + 3600)).1 = none :=
  ⟨(c4_ttl_strict_amended initLearner "q" "financial" "text" none payloadFx 100 3599
      (by decide)).1 (by decide),
   ((c4_ttl_strict_amended initLearner "q" "financial" "text" none payloadFx 100 3600
      (by decide)).2 (by decide)).1⟩

/-- **C7** (counterexample): the unit patterns are tried in the fixed
order seconds → minutes → hours → …, so the message
`"past 3 hours 10 minutes"` — which contains the phrase `"past 3 hours"`
— resolves to a 10-minute cutoff, not a 3-hour cutoff. -/
theorem c7_unit_order_counterexample :
    strContains "past 3 hours 10 minutes" "past 3 hours" = true ∧
    chatBuildTimeFilter "past 3 hours 10 minutes" 1000000 =
      (TimePred.tsGe (1000000 - 600), "past 10 minutes") ∧
    ¬ (chatBuildTimeFilter "past 3 hours 10 minutes" 1000000).1 =
        TimePred.tsGe (1000000 - 10800) := by
  refine ⟨by decide, by decide, by decide⟩

/-- **C7** (amended): on the message `"past 3 hours"` (no smaller-unit
phrase elsewhere) the cutoff is exactly 3 hours before evaluation time;
a matching relative phrase takes precedence over `"today"`; `"today"`
with no relative phrase yields the day-truncation predicate; no time
phrase yields the tautological predicate labelled "all time". -/
theorem c7_time_resolver_amended :
    (∀ now : Int, chatBuildTimeFilter "past 3 hours" now =
      (TimePred.tsGe (now - 3 * 3600), "past 3 hours")) ∧
    (∀ now : Int, chatBuildTimeFilter "how many orders today" now =
      (TimePred.dayTruncToday, "today")) ∧
    (∀ now : Int, chatBuildTimeFilter "last 2 hours today" now =
      (TimePred.tsGe (now - 2 * 3600), "past 2 hours")) ∧
    (∀ now : Int, chatBuildTimeFilter "how many orders" now =
      (TimePred.triv, "all time")) :=
  ⟨fun _ => rfl, fun _ => rfl, fun _ => rfl, fun _ => rfl⟩

/-- **C8** (counterexample): the live rule compiler in `routes/chat.py`
emits plain `SUM(amount)` with no COALESCE for the revenue shape. -/
theorem c8_chat_revenue_without_coalesce :
    chatBuildRuleSql "revenue" "financial" 0 = some
      "SELECT SUM(amount) AS total_revenue, COUNT(*) AS order_count FROM financial_orders WHERE 1=1;" ∧
    strContains
      "SELECT SUM(amount) AS total_revenue, COUNT(*) AS order_count FROM financial_orders WHERE 1=1;"
      "COALESCE" = false := by
  refine ⟨by decide, by decide⟩

/-- **C8** (amended): only the `utils/sql_generation.py` rule compiler
wraps the revenue sum in `COALESCE(SUM(amount), 0)`; for every financial
message containing "revenue" that does not hit the earlier count branch,
its compiled SQL contains the wrapped aggregate. -/
theorem c8_utils_coalesce_amended (msg : String) (now : Int)
    (hrev : strContains (pyLower msg) "revenue" = true)
    (hnot : ¬ (strContains (pyLower msg) "how many" = true ∧
               strContains (pyLower msg) "order" = true)) :
    ∃ s, utilsBuildRuleSql msg "financial" now = some s ∧
      strContains s "COALESCE(SUM(amount), 0)" = true := by
  have h1 : (strContains (pyLower msg) "how many" && strContains (pyLower msg) "order") = false := by
    cases hh1 : strContains (pyLower msg) "how many" <;>
      cases hh2 : strContains (pyLower msg) "order" <;> simp_all
  have hbase1 : strContains
      "SELECT customer, COALESCE(SUM(amount), 0) AS total_revenue FROM "
      "COALESCE(SUM(amount), 0)" = true := by decide
  have hbase2 : strContains
      "SELECT COALESCE(SUM(amount), 0) AS total_revenue FROM "
      "COALESCE(SUM(amount), 0)" = true := by decide
  simp only [utilsBuildRuleSql, h1, hrev, if_pos rfl, Bool.false_eq_true, if_false,
    Bool.true_or, if_true]
  split
  · exact ⟨_, rfl, by
      repeat' apply strContains_append_left
      exact hbase1⟩
  · exact ⟨_, rfl, by
      repeat' apply strContains_append_left
      exact hbase2⟩

/-- Witness for `c8_utils_coalesce_amended` at the message "revenue". -/
theorem c8_utils_coalesce_amended_witness :
    ∃ s, utilsBuildRuleSql "revenue" "financial" 0 = some s ∧
      strContains s "COALESCE(SUM(amount), 0)" = true :=
  c8_utils_coalesce_amended "revenue" 0 (by decide) (by decide)

/-- **C10** (confirmed): the cache key is built from the lowered and
stripped query text, so two queries equal up to case and surrounding
whitespace (same source and mode) address the same entry: a payload
stored under one is returned for the other while inside the TTL. -/
theorem c10_cache_key_normalization (st : LearnerState) (q1 q2 src mode : String)
    (sq : Option String) (p : ChatResp) (t0 d : Int)
    (hq : pyStrip (pyLower q1) = pyStrip (pyLower q2)) (hd : d < st.cache_ttl) :
    hashQuery q1 src mode = hashQuery q2 src mode ∧
    (getCachedResponse (cacheResponse st q1 src mode sq p t0) q2 src mode (t0 + d)).1 = some p := by
  have hh : hashQuery q1 src mode = hashQuery q2 src mode := by
    unfold hashQuery
    rw [hq]
  exact ⟨hh, cache_store_then_get_hit st q1 q2 src mode sq p t0 d hh hd⟩

/-! Lemmas for the bounded-eviction claim. -/

theorem dictInsert_length_le {α : Type} (l : List (String × α)) (k : String) (v : α) :
    (dictInsert l k v).length ≤ l.length + 1 := by
  induction l with
  | nil => simp [dictInsert]
  | cons hd tl ih =>
      obtain ⟨k0, w⟩ := hd
      by_cases hk : k0 = k <;> simp [dictInsert, hk] <;> omega

theorem dictErase_length_of_mem {α : Type} (l : List (String × α)) (k : String)
    (h : k ∈ l.map Prod.fst) : (dictErase l k).length + 1 = l.length := by
  induction l with
  | nil => simp at h
  | cons hd tl ih =>
      obtain ⟨k0, w⟩ := hd
      by_cases hk : k0 = k
      · simp [dictErase, hk]
      · simp only [List.map, List.mem_cons] at h
        rcases h with h | h
        · exact absurd h.symm hk
        · simp [dictErase, hk, ih h]

theorem oldestFrom_mem (rest : List (String × QueryCacheEntry)) :
    ∀ (k : String) (ts : Int), oldestFrom k ts rest ∈ k :: rest.map Prod.fst := by
  induction rest with
  | nil => intro k ts; simp [oldestFrom]
  | cons hd tl ih =>
      intro k ts
      obtain ⟨k', e⟩ := hd
      simp only [oldestFrom]
      split
      · have h2 := ih k' e.timestamp
        simp only [List.map]
        rcases List.mem_cons.mp h2 with h | h
        · exact List.mem_cons_of_mem _ (List.mem_cons.mpr (Or.inl h))
        · exact List.mem_cons_of_mem _ (List.mem_cons_of_mem _ h)
      · have h2 := ih k ts
        simp only [List.map]
        rcases List.mem_cons.mp h2 with h | h
        · exact List.mem_cons.mpr (Or.inl h)
        · exact List.mem_cons_of_mem _ (List.mem_cons_of_mem _ h)

theorem oldestFrom_head (l : List (String × QueryCacheEntry)) (k : String) (ts : Int)
    (h : ∀ x ∈ l, ts < x.2.timestamp) : oldestFrom k ts l = k := by
  induction l with
  | nil => rfl
  | cons hd tl ih =>
      obtain ⟨k', e⟩ := hd
      have hts : ts < e.timestamp := h (k', e) (by simp)
      simp only [oldestFrom]
      rw [if_neg (not_lt.mpr (le_of_lt hts))]
      exact ih (fun x hx => h x (List.mem_cons_of_mem _ hx))

theorem cacheResponse_cache_notFull (st : LearnerState) (q s m : String) (sq : Option String)
    (p : ChatResp) (t : Int) (h : ¬ st.cache.length ≥ st.max_cache_size) :
    (cacheResponse st q s m sq p t).cache = dictInsert st.cache (hashQuery q s m)
      { query_hash := hashQuery q s m, original_query := q, source := s, mode := m,
        sql_query := sq, response_data := p, timestamp := t } := by
  rw [cacheResponse_cache, if_neg h]

theorem cacheResponse_cache_full (st : LearnerState) (q s m : String) (sq : Option String)
    (p : ChatResp) (t : Int) (k : String) (hfull : st.cache.length ≥ st.max_cache_size)
    (hok : oldestKey st.cache = some k) :
    (cacheResponse st q s m sq p t).cache = dictInsert (dictErase st.cache k) (hashQuery q s m)
      { query_hash := hashQuery q s m, original_query := q, source := s, mode := m,
        sql_query := sq, response_data := p, timestamp := t } := by
  rw [cacheResponse_cache, if_pos hfull, hok]

theorem insertSeq_append (st : LearnerState) (src mode : String) (p : ChatResp)
    (l₁ l₂ : List (String × Int)) :
    insertSeq st src mode p (l₁ ++ l₂) =
      insertSeq (insertSeq st src mode p l₁) src mode p l₂ := by
  induction l₁ generalizing st with
  | nil => rfl
  | cons a l₁ ih =>
      obtain ⟨q, t⟩ := a
      simp only [List.cons_append, insertSeq]
      exact ih _

/-- Inserting pairwise-fresh keys while strictly below capacity appends
entries in order with no eviction. -/
theorem insertSeq_no_evict (src mode : String) (p : ChatResp) :
    ∀ (ps : List (String × Int)) (st : LearnerState),
      (∀ a ∈ ps, dictFind st.cache (hashQuery a.1 src mode) = none) →
      ((ps.map (fun a => hashQuery a.1 src mode)).Nodup) →
      st.cache.length + ps.length ≤ st.max_cache_size →
      (insertSeq st src mode p ps).cache =
        st.cache ++ ps.map (fun a => (hashQuery a.1 src mode, mkEntryFx src mode p a)) ∧
      (insertSeq st src mode p ps).max_cache_size = st.max_cache_size := by
  intro ps
  induction ps with
  | nil => intro st _ _ _; simp [insertSeq]
  | cons a ps ih =>
      intro st hfresh hnd hcap
      obtain ⟨q, t⟩ := a
      have hlt : st.cache.length < st.max_cache_size := by
        simp only [List.length_cons] at hcap; omega
      have hcache1 : (cacheResponse st q src mode none p t).cache =
          st.cache ++ [(hashQuery q src mode, mkEntryFx src mode p (q, t))] := by
        rw [cacheResponse_cache_notFull st q src mode none p t (not_le.mpr hlt)]
        exact dictInsert_fresh _ _ _ (hfresh (q, t) (List.mem_cons_self _ _))
      have hnd' := List.nodup_cons.mp hnd
      have hfresh1 : ∀ a' ∈ ps, dictFind (cacheResponse st q src mode none p t).cache
          (hashQuery a'.1 src mode) = none := by
        intro a' ha'
        rw [hcache1, dictFind_append, hfresh a' (List.mem_cons_of_mem _ ha')]
        refine dictFind_single_ne _ (fun heq => hnd'.1 ?_)
        have hmem : hashQuery a'.1 src mode ∈ ps.map (fun a => hashQuery a.1 src mode) :=
          List.mem_map.mpr ⟨a', ha', rfl⟩
        rw [← heq] at hmem
        simpa using hmem
      have hcap1 : (cacheResponse st q src mode none p t).cache.length + ps.length ≤
          (cacheResponse st q src mode none p t).max_cache_size := by
        rw [hcache1, cacheResponse_max]
        simp only [List.length_append, List.length_cons, List.length_nil] at hcap ⊢
        omega
      have ihres := ih (cacheResponse st q src mode none p t) hfresh1 hnd'.2 hcap1
      constructor
      · show (insertSeq (cacheResponse st q src mode none p t) src mode p ps).cache = _
        rw [ihres.1, hcache1]
        simp [List.append_assoc]
      · show (insertSeq (cacheResponse st q src mode none p t) src mode p ps).max_cache_size = _
        rw [ihres.2, cacheResponse_max]

/-- **C5** (confirmed): the query cache never exceeds its capacity — at
capacity, `cache_response` evicts the single entry with the globally
smallest creation timestamp (first-inserted on ties) before inserting —
and inserting capacity+1 distinct keys (strictly increasing creation
times) into an empty learner leaves exactly `capacity` entries with the
single oldest key absent and every later key present; the default
capacity is 1000. -/
theorem c5_capacity_and_oldest_eviction :
    initLearner.max_cache_size = 1000 ∧
    (∀ (st : LearnerState) (q src mode : String) (sq : Option String) (p : ChatResp) (t : Int),
      0 < st.max_cache_size → st.cache.length ≤ st.max_cache_size →
      (cacheResponse st q src mode sq p t).cache.length ≤ st.max_cache_size) ∧
    (∀ (c : Nat) (src mode : String) (p : ChatResp) (q0 : String) (t0 : Int)
        (rest : List (String × Int)),
      0 < c → rest.length = c →
      ((((q0, t0) :: rest).map (fun a => hashQuery a.1 src mode)).Nodup) →
      (((q0, t0) :: rest).Pairwise (fun a b => a.2 < b.2)) →
      (insertSeq { initLearner with max_cache_size := c } src mode p
          ((q0, t0) :: rest)).cache.length = c ∧
      dictFind (insertSeq { initLearner with max_cache_size := c } src mode p
          ((q0, t0) :: rest)).cache (hashQuery q0 src mode) = none ∧
      ∀ a ∈ rest, (dictFind (insertSeq { initLearner with max_cache_size := c } src mode p
          ((q0, t0) :: rest)).cache (hashQuery a.1 src mode)).isSome) := by
  refine ⟨rfl, ?_, ?_⟩
  · -- capacity invariant
    intro st q src mode sq p t hpos hlen
    by_cases hfull : st.cache.length ≥ st.max_cache_size
    · obtain ⟨⟨k0, e0⟩, tl, hcons⟩ : ∃ hd tl, st.cache = hd :: tl := by
        cases hc : st.cache with
        | nil =>
            exfalso
            rw [hc] at hfull
            simp at hfull
            omega
        | cons hd tl => exact ⟨hd, tl, rfl⟩
      have hok : oldestKey st.cache = some (oldestFrom k0 e0.timestamp tl) := by
        rw [hcons]; rfl
      rw [cacheResponse_cache_full st q src mode sq p t _ hfull hok]
      have hmem : oldestFrom k0 e0.timestamp tl ∈ st.cache.map Prod.fst := by
        rw [hcons]
        simpa using oldestFrom_mem tl k0 e0.timestamp
      calc (dictInsert (dictErase st.cache (oldestFrom k0 e0.timestamp tl))
              (hashQuery q src mode)
              { query_hash := hashQuery q src mode, original_query := q, source := src,
                mode := mode, sql_query := sq, response_data := p, timestamp := t }).length
          ≤ (dictErase st.cache (oldestFrom k0 e0.timestamp tl)).length + 1 :=
            dictInsert_length_le _ _ _
        _ = st.cache.length := dictErase_length_of_mem st.cache _ hmem
        _ ≤ st.max_cache_size := hlen
    · rw [cacheResponse_cache_notFull st q src mode sq p t hfull]
      have h1 := dictInsert_length_le st.cache (hashQuery q src mode)
        { query_hash := hashQuery q src mode, original_query := q, source := src,
          mode := mode, sql_query := sq, response_data := p, timestamp := t }
      push_neg at hfull
      omega
  · -- eviction scenario
    intro c src mode p q0 t0 rest hc hlen hnodup hpair
    have hrne : rest ≠ [] := by
      intro h; rw [h] at hlen; simp at hlen; omega
    obtain ⟨mid, lastP, hrest⟩ : ∃ mid lastP, rest = mid ++ [lastP] :=
      ⟨rest.dropLast, rest.getLast hrne, (List.dropLast_append_getLast hrne).symm⟩
    have hmidlen : mid.length + 1 = c := by
      rw [hrest] at hlen; simpa using hlen
    have hsplit : (q0, t0) :: rest = ((q0, t0) :: mid) ++ [lastP] := by
      rw [hrest]; rfl
    have hfreshF : ∀ a ∈ (q0, t0) :: mid,
        dictFind ({ initLearner with max_cache_size := c } : LearnerState).cache
          (hashQuery a.1 src mode) = none := by
      intro a _; rfl
    have hndF : (((q0, t0) :: mid).map (fun a => hashQuery a.1 src mode)).Nodup := by
      refine hnodup.sublist (List.Sublist.map _ ?_)
      refine List.Sublist.cons₂ _ ?_
      rw [hrest]
      exact List.sublist_append_left mid [lastP]
    have hlenF : ({ initLearner with max_cache_size := c } : LearnerState).cache.length +
        ((q0, t0) :: mid).length ≤
        ({ initLearner with max_cache_size := c } : LearnerState).max_cache_size := by
      show ([] : List (String × QueryCacheEntry)).length + (mid.length + 1) ≤ c
      simp
      omega
    have hfront := insertSeq_no_evict src mode p ((q0, t0) :: mid)
      { initLearner with max_cache_size := c } hfreshF hndF hlenF
    have hcacheF : (insertSeq { initLearner with max_cache_size := c } src mode p
        ((q0, t0) :: mid)).cache =
        (hashQuery q0 src mode, mkEntryFx src mode p (q0, t0)) ::
          mid.map (fun a => (hashQuery a.1 src mode, mkEntryFx src mode p a)) := by
      rw [hfront.1]
      rfl
    have hmaxF : (insertSeq { initLearner with max_cache_size := c } src mode p
        ((q0, t0) :: mid)).max_cache_size = c := by
      rw [hfront.2]
    have hlenc : (insertSeq { initLearner with max_cache_size := c } src mode p
        ((q0, t0) :: mid)).cache.length = c := by
      rw [hcacheF]
      simp
      omega
    have hfinal : insertSeq { initLearner with max_cache_size := c } src mode p
        ((q0, t0) :: rest) =
        cacheResponse (insertSeq { initLearner with max_cache_size := c } src mode p
          ((q0, t0) :: mid)) lastP.1 src mode none p lastP.2 := by
      rw [hsplit, insertSeq_append]
      rfl
    have hfull : (insertSeq { initLearner with max_cache_size := c } src mode p
        ((q0, t0) :: mid)).cache.length ≥
        (insertSeq { initLearner with max_cache_size := c } src mode p
        ((q0, t0) :: mid)).max_cache_size := by
      rw [hlenc, hmaxF]
    have hoLt : ∀ x ∈ mid.map (fun a => (hashQuery a.1 src mode, mkEntryFx src mode p a)),
        (mkEntryFx src mode p (q0, t0)).timestamp < x.2.timestamp := by
      intro x hx
      obtain ⟨a, ha, rfl⟩ := List.mem_map.mp hx
      have hrel := (List.pairwise_cons.mp hpair).1 a
        (by rw [hrest]; exact List.mem_append_left _ ha)
      simpa [mkEntryFx] using hrel
    have hok : oldestKey (insertSeq { initLearner with max_cache_size := c } src mode p
        ((q0, t0) :: mid)).cache = some (hashQuery q0 src mode) := by
      rw [hcacheF]
      simp only [oldestKey]
      rw [oldestFrom_head _ _ _ hoLt]
    have hq0ne : hashQuery q0 src mode ∉ rest.map (fun a => hashQuery a.1 src mode) :=
      (List.nodup_cons.mp hnodup).1
    have hndrest : (rest.map fun a => hashQuery a.1 src mode).Nodup :=
      (List.nodup_cons.mp hnodup).2
    have hmaprest : rest.map (fun a => hashQuery a.1 src mode) =
        mid.map (fun a => hashQuery a.1 src mode) ++ [hashQuery lastP.1 src mode] := by
      rw [hrest]; simp
    have hLnotmid : hashQuery lastP.1 src mode ∉
        mid.map (fun a => hashQuery a.1 src mode) := by
      rw [hmaprest] at hndrest
      intro h
      have hdisj := (List.nodup_append.mp hndrest).2.2
      exact hdisj h (by simp)
    have hLneq0 : ¬ hashQuery q0 src mode = hashQuery lastP.1 src mode := by
      intro h
      apply hq0ne
      rw [hmaprest]
      exact List.mem_append_right _ (by simp [h])
    have hcachefin : (cacheResponse (insertSeq { initLearner with max_cache_size := c }
          src mode p ((q0, t0) :: mid)) lastP.1 src mode none p lastP.2).cache =
        mid.map (fun a => (hashQuery a.1 src mode, mkEntryFx src mode p a)) ++
          [(hashQuery lastP.1 src mode, mkEntryFx src mode p lastP)] := by
      rw [cacheResponse_cache_full _ _ _ _ _ _ _ _ hfull hok, hcacheF, dictErase_head]
      apply dictInsert_fresh
      refine dictFind_eq_none_of_not_mem _ _ (fun hmem => hLnotmid ?_)
      simpa using hmem
    refine ⟨?_, ?_, ?_⟩
    · rw [hfinal, hcachefin]
      simp
      omega
    · rw [hfinal, hcachefin, dictFind_append]
      have h1 : dictFind (mid.map fun a => (hashQuery a.1 src mode, mkEntryFx src mode p a))
          (hashQuery q0 src mode) = none := by
        refine dictFind_eq_none_of_not_mem _ _ (fun hmem => hq0ne ?_)
        rw [hmaprest]
        exact List.mem_append_left _ (by simpa using hmem)
      rw [h1]
      exact dictFind_single_ne _ (fun h => hLneq0 h.symm)
    · intro a ha
      rw [hfinal, hcachefin, dictFind_append]
      rw [hrest] at ha
      rcases List.mem_append.mp ha with ha | ha
      · have hsome : (dictFind (mid.map fun a =>
            (hashQuery a.1 src mode, mkEntryFx src mode p a))
            (hashQuery a.1 src mode)).isSome := by
          apply dictFind_isSome_of_mem
          simp only [List.map_map]
          exact List.mem_map.mpr ⟨a, ha, rfl⟩
        rcases Option.isSome_iff_exists.mp hsome with ⟨v, hv⟩
        rw [hv]
        rfl
      · have haL : a = lastP := by simpa using ha
        subst haL
        have h1 : dictFind (mid.map fun a =>
            (hashQuery a.1 src mode, mkEntryFx src mode p a))
            (hashQuery a.1 src mode) = none := by
          refine dictFind_eq_none_of_not_mem _ _ (fun hmem => hLnotmid ?_)
          simpa using hmem
        rw [h1]
        simp [dictFind]

/-- Witness for `c5_capacity_and_oldest_eviction`: capacity 2, inserting
the three distinct keys "a", "b", "c" evicts exactly "a". -/
theorem c5_capacity_and_oldest_eviction_witness :
    (insertSeq { initLearner with max_cache_size := 2 } "financial" "text" payloadFx
        [("a", 0), ("b", 1), ("c", 2)]).cache.length = 2 ∧
    dictFind (insertSeq { initLearner with max_cache_size := 2 } "financial" "text" payloadFx
        [("a", 0), ("b", 1), ("c", 2)]).cache (hashQuery "a" "financial" "text") = none := by
  have h := (c5_capacity_and_oldest_eviction.2.2 2 "financial" "text" payloadFx "a" 0
    [("b", 1), ("c", 2)] (by decide) (by decide) (by decide) (by decide))
  exact ⟨h.1, h.2.1⟩

/-- Witness for `c10_cache_key_normalization`: `"  Revenue "` and
`"revenue"` share one cache entry. -/
theorem c10_cache_key_normalization_witness :
    hashQuery "  Revenue " "financial" "text" = hashQuery "revenue" "financial" "text" ∧
    (getCachedResponse (cacheResponse initLearner "  Revenue " "financial" "text" none payloadFx 0)
        "revenue" "financial" "text" (0 + 10)).1 = some payloadFx :=
  c10_cache_key_normalization initLearner "  Revenue " "revenue" "financial" "text" none
    payloadFx 0 10 (by decide) (by decide)

/-! Run-shape lemmas for the router theorems. -/

theorem formatAndStore_trace (req : ChatReq) (dm asrc ckey sqlT : String) (df : Df)
    (o : Oracle) (now : Int) (st : GlobalSt) :
    (formatAndStore req dm asrc ckey sqlT df o now st).2.2 =
      [AskEvent.histAppendAssistant, AskEvent.cacheStore] := by
  simp only [formatAndStore]
  repeat' split
  all_goals rfl

theorem ragWithSchemaContext_trace (o : Oracle) (s m : String) :
    (ragWithSchemaContext o s m).2 = [AskEvent.extRagSearch] ∨
    (ragWithSchemaContext o s m).2 = [AskEvent.extRagSearch, AskEvent.extRagLlm] := by
  simp only [ragWithSchemaContext]
  repeat' split
  all_goals first
    | exact Or.inl rfl
    | exact Or.inr rfl

theorem askMissBranch_trace_mem (oracle : Oracle) (req : ChatReq) (now : Int) (st1 : GlobalSt)
    (ev1 : List AskEvent) (asrc ckey : String) {e : AskEvent} (he : e ∈ ev1) :
    e ∈ (askMissBranch oracle req now st1 ev1 asrc ckey).2.2 := by
  simp only [askMissBranch, runSqlAndFormat]
  repeat' split
  all_goals repeat apply List.mem_append_left
  all_goals exact he

/-- On a cache miss, `ask` runs the miss continuation on the prefix state. -/
theorem ask_of_miss (H : String → Nat) (oracle : Oracle) (req : ChatReq) (now : Int)
    (st : GlobalSt) (hmiss : (askPrefix H req now st).2.2.2.2 = none) :
    ask H oracle req now st = askMissBranch oracle req now (askPrefix H req now st).1
      (askPrefix H req now st).2.1 (askPrefix H req now st).2.2.1
      (askPrefix H req now st).2.2.2.1 := by
  unfold ask
  rcases hP : askPrefix H req now st with ⟨st1, ev1, asrc, ckey, cached⟩
  rw [hP] at hmiss
  have hc : cached = none := hmiss
  subst hc
  rfl

/-- On a cache hit, `ask` returns the cached payload with a `cacheHit`
trace. -/
theorem ask_of_hit (H : String → Nat) (oracle : Oracle) (req : ChatReq) (now : Int)
    (st : GlobalSt) (p : ChatResp) (hhit : (askPrefix H req now st).2.2.2.2 = some p) :
    ask H oracle req now st =
      (.ok p, (askPrefix H req now st).1, (askPrefix H req now st).2.1 ++ [.cacheHit]) := by
  unfold ask
  rcases hP : askPrefix H req now st with ⟨st1, ev1, asrc, ckey, cached⟩
  rw [hP] at hhit
  have hc : cached = some p := hhit
  subst hc
  rfl

theorem askPrefix_trace (H : String → Nat) (req : ChatReq) (now : Int) (st : GlobalSt) :
    (askPrefix H req now st).2.1 = [AskEvent.histAppendUser, AskEvent.cacheLookup] := rfl

/-- **C3** (counterexample): `"hi, how many orders"` is classified as a
greeting by `is_greeting_or_social`, yet the `ask` route — which never
consults the greeting detector — performs the cache lookup, executes SQL,
stores into the cache, and answers with the SQL result, not the canned
greeting response. -/
theorem c3_greeting_not_short_circuited_counterexample :
    isGreetingOrSocial "hi, how many orders" = true ∧
    AskEvent.cacheLookup ∈ (ask String.length (orcCount 7) reqGreet 0 initGlobalSt).2.2 ∧
    AskEvent.extSqlExec ∈ (ask String.length (orcCount 7) reqGreet 0 initGlobalSt).2.2 ∧
    AskEvent.cacheStore ∈ (ask String.length (orcCount 7) reqGreet 0 initGlobalSt).2.2 ∧
    ¬ (ask String.length (orcCount 7) reqGreet 0 initGlobalSt).1 =
      AskResult.ok
        { mode := "text"
          text := some (getGreetingResponse "hi, how many orders") } := by
  refine ⟨by decide, by decide, by decide, by decide, by decide⟩

/-- **C3** (amended): the live router never consults the greeting
detector: every `ask` request — greeting or not — reaches the cache
lookup (the short-circuit described by the claim does not exist). -/
theorem c3_no_greeting_short_circuit_amended (H : String → Nat) (oracle : Oracle)
    (req : ChatReq) (now : Int) (st : GlobalSt)
    (hgreet : isGreetingOrSocial req.message = true) :
    AskEvent.cacheLookup ∈ (ask H oracle req now st).2.2 := by
  rcases hc : (askPrefix H req now st).2.2.2.2 with _ | p
  · rw [ask_of_miss H oracle req now st hc]
    exact askMissBranch_trace_mem oracle req now _ _ _ _
      (by rw [askPrefix_trace]; simp)
  · rw [ask_of_hit H oracle req now st p hc, askPrefix_trace]
    simp

/-- Witness for `c3_no_greeting_short_circuit_amended`. -/
theorem c3_no_greeting_short_circuit_amended_witness :
    AskEvent.cacheLookup ∈ (ask String.length (orcCount 7) reqGreet 0 initGlobalSt).2.2 :=
  c3_no_greeting_short_circuit_amended String.length (orcCount 7) reqGreet 0 initGlobalSt
    (by decide)

theorem getCachedResponse_cache_other (st : LearnerState) (q s m : String) (now : Int)
    (k : String) (hk : ¬ k = hashQuery q s m) :
    dictFind (getCachedResponse st q s m now).2.cache k = dictFind st.cache k := by
  simp only [getCachedResponse]
  split
  · split
    · exact dictFind_insert_ne _ _ hk
    · exact dictFind_erase_ne _ hk
  · rfl

/-- In the miss continuation (starting from the canonical prefix trace),
every `cacheStore` event is preceded by a completed `sql.query` call. -/
theorem askMissBranch_store_after_exec (oracle : Oracle) (req : ChatReq) (now : Int)
    (st1 : GlobalSt) (asrc ckey : String) :
    (AskEvent.cacheStore ∈ (askMissBranch oracle req now st1
        [AskEvent.histAppendUser, AskEvent.cacheLookup] asrc ckey).2.2 →
      AskEvent.extSqlExec ∈ (askMissBranch oracle req now st1
        [AskEvent.histAppendUser, AskEvent.cacheLookup] asrc ckey).2.2) ∧
    noStoreBeforeExec (askMissBranch oracle req now st1
        [AskEvent.histAppendUser, AskEvent.cacheLookup] asrc ckey).2.2 = true := by
  simp only [askMissBranch, runSqlAndFormat]
  repeat' split
  all_goals first
    | (rw [formatAndStore_trace]; exact of_decide_eq_true rfl)
    | (rcases ragWithSchemaContext_trace oracle asrc req.message with h | h <;> rw [h] <;>
        exact of_decide_eq_true rfl)
    | exact of_decide_eq_true rfl

/-- **C9** (counterexample): at the state where a cache-missing request
suspends on its first external call (schema retrieval), the session
history has already been mutated with the appended user message — so a
request abandoned at that suspension point does not leave the history
exactly as it was.  The run's trace confirms the history append precedes
every external event. -/
theorem c9_history_mutated_before_external_counterexample :
    (askPrefix String.length reqHMO 0 initGlobalSt).2.2.2.2 = none ∧
    (askPrefix String.length reqHMO 0 initGlobalSt).2.1 =
      [AskEvent.histAppendUser, AskEvent.cacheLookup] ∧
    dictFind (askPrefix String.length reqHMO 0 initGlobalSt).1.conversation_history
      "default_session" =
      some [{ role := "user", message := "how many orders", timestamp := 0 }] ∧
    dictFind initGlobalSt.conversation_history "default_session" = none ∧
    (ask String.length (orcCount 5) reqHMO 0 initGlobalSt).2.2 =
      [AskEvent.histAppendUser, AskEvent.cacheLookup, AskEvent.extSchema,
       AskEvent.extIntentLlm, AskEvent.extSqlExec, AskEvent.histAppendAssistant,
       AskEvent.cacheStore] := by
  refine ⟨by decide, by decide, by decide, by decide, by decide⟩

/-- **C9** (amended): before the first external call, `ask` has already
appended the user message to the session's history (trimmed to 10) —
that is the only history mutation, other sessions are untouched — and
the cache lookup touches no key other than the looked-up one and never
the pattern logs; cache writes (`cacheStore`) happen only after the SQL
engine call completes, and a trace never contains a `cacheStore` before
the first completed `sql.query`. -/
theorem c9_mutation_discipline_amended (H : String → Nat) (oracle : Oracle) (req : ChatReq)
    (now : Int) (st : GlobalSt) :
    (dictFind (askPrefix H req now st).1.conversation_history req.session_id =
      some (let h1 := (dictFind st.conversation_history req.session_id).getD [] ++
              [{ role := "user", message := req.message, timestamp := now }]
            if h1.length > 10 then listTakeLast 10 h1 else h1)) ∧
    (∀ sid : String, ¬ sid = req.session_id →
      dictFind (askPrefix H req now st).1.conversation_history sid =
        dictFind st.conversation_history sid) ∧
    (askPrefix H req now st).1.learner.pattern_learning = st.learner.pattern_learning ∧
    (∀ k : String,
      ¬ k = hashQuery (askPrefix H req now st).2.2.2.1 (askPrefix H req now st).2.2.1
        req.mode →
      dictFind (askPrefix H req now st).1.learner.cache k = dictFind st.learner.cache k) ∧
    (AskEvent.cacheStore ∈ (ask H oracle req now st).2.2 →
      AskEvent.extSqlExec ∈ (ask H oracle req now st).2.2) ∧
    noStoreBeforeExec (ask H oracle req now st).2.2 = true := by
  refine ⟨dictFind_insert_self _ _ _, fun sid hsid => dictFind_insert_ne _ _ hsid,
    getCachedResponse_pattern _ _ _ _ _,
    fun k hk => getCachedResponse_cache_other _ _ _ _ _ _ hk, ?_, ?_⟩
  · rcases hc : (askPrefix H req now st).2.2.2.2 with _ | p
    · rw [ask_of_miss H oracle req now st hc, askPrefix_trace]
      exact (askMissBranch_store_after_exec oracle req now _ _ _).1
    · rw [ask_of_hit H oracle req now st p hc, askPrefix_trace]
      exact of_decide_eq_true rfl
  · rcases hc : (askPrefix H req now st).2.2.2.2 with _ | p
    · rw [ask_of_miss H oracle req now st hc, askPrefix_trace]
      exact (askMissBranch_store_after_exec oracle req now _ _ _).2
    · rw [ask_of_hit H oracle req now st p hc, askPrefix_trace]
      exact of_decide_eq_true rfl

/-- Witness for `c9_mutation_discipline_amended`. -/
theorem c9_mutation_discipline_amended_witness :
    dictFind (askPrefix String.length reqHMO 0 initGlobalSt).1.conversation_history "other" =
      dictFind initGlobalSt.conversation_history "other" ∧
    noStoreBeforeExec (ask String.length (orcCount 5) reqHMO 0 initGlobalSt).2.2 = true :=
  ⟨(c9_mutation_discipline_amended String.length (orcCount 5) reqHMO 0 initGlobalSt).2.1
      "other" (by decide),
   (c9_mutation_discipline_amended String.length (orcCount 5) reqHMO 0
      initGlobalSt).2.2.2.2.2⟩

/-- **C1** (counterexample): two `ask` calls with identical
(message, source, mode, session_id) — `"how many orders"`, financial,
text, default session, 10 s apart, deterministic collaborators, no
intervening session mutation: the first call's own history append changes
the last-3-turn context in the cache key, so the second call misses the
cache (no `cacheHit`), recomputes, stores under a second key, and the
successful-query pattern log grows to two entries — refuting "served
from the cache" and "grows by at most one entry in total". -/
theorem c1_repeated_ask_counterexample :
    (dictFind (c1Run1 String.length 5).2.1.learner.pattern_learning
      "successful_queries").map List.length = some 1 ∧
    (dictFind (c1Run2 String.length 5).2.1.learner.pattern_learning
      "successful_queries").map List.length = some 2 ∧
    AskEvent.cacheHit ∉ (c1Run2 String.length 5).2.2 ∧
    (c1Run2 String.length 5).2.1.learner.cache.length = 2 := by
  refine ⟨by decide, by decide, by decide, by decide⟩

/-- `askPrefix` component equations for the fixed request `reqHMO`
(all definitional; they let the run proofs rewrite instead of evaluating). -/
theorem askPrefix_key_reqHMO (H : String → Nat) (now : Int) (st : GlobalSt) :
    (askPrefix H reqHMO now st).2.2.2.1 =
      "how many orders" ++ "|" ++ "financial" ++ "|" ++ "text" ++ "|" ++
        toString (H (pyJoin " " ((listTakeLast 3
          (let h1 := (dictFind st.conversation_history "default_session").getD [] ++
            [{ role := "user", message := "how many orders", timestamp := now }]
          if h1.length > 10 then listTakeLast 10 h1 else h1)).map
          (fun t => t.message))) % 10000) := rfl

theorem askPrefix_cached_reqHMO (H : String → Nat) (now : Int) (st : GlobalSt) :
    (askPrefix H reqHMO now st).2.2.2.2 =
      (getCachedResponse st.learner (askPrefix H reqHMO now st).2.2.2.1
        "financial" "text" now).1 := rfl

theorem askPrefix_learner_reqHMO (H : String → Nat) (now : Int) (st : GlobalSt) :
    (askPrefix H reqHMO now st).1.learner =
      (getCachedResponse st.learner (askPrefix H reqHMO now st).2.2.2.1
        "financial" "text" now).2 := rfl

/-- Shape of a cache-missing `ask` run for the fixed request `reqHMO` with
the deterministic `orcCount` collaborators. -/
theorem ask_reqHMO_miss_shape (H : String → Nat) (n now : Int) (st : GlobalSt)
    (hmiss : (askPrefix H reqHMO now st).2.2.2.2 = none) :
    ask H (orcCount n) reqHMO now st =
      (AskResult.ok (c1Resp n),
       { conversation_history := dictInsert
           (askPrefix H reqHMO now st).1.conversation_history "default_session"
           (((dictFind (askPrefix H reqHMO now st).1.conversation_history
               "default_session").getD []) ++
             [{ role := "assistant", message := "Count: " ++ toString n, timestamp := now }]),
         learner := cacheResponse (askPrefix H reqHMO now st).1.learner
           (askPrefix H reqHMO now st).2.2.2.1 "financial" "text" (some c1Sql)
           (c1Resp n) now },
       [AskEvent.histAppendUser, AskEvent.cacheLookup, AskEvent.extSchema,
        AskEvent.extIntentLlm, AskEvent.extSqlExec, AskEvent.histAppendAssistant,
        AskEvent.cacheStore]) := by
  rw [ask_of_miss H (orcCount n) reqHMO now st hmiss]
  rfl

set_option maxHeartbeats 40000000 in
/-- **C1** (amended): for any process string hash under which the two
last-3-turn contexts produce different cache keys (the generic case —
they coincide only when the context hashes collide mod 10000), the
second identical call is not served from the cache: it has no `cacheHit`
event, performs its own `cacheStore`, and the pattern log grows by one
entry per call — two in total. -/
theorem c1_context_sensitive_key_amended (H : String → Nat) (n : Int)
    (hne : ¬ c1Hash1 H = c1Hash2 H n) :
    AskEvent.cacheHit ∉ (c1Run2 H n).2.2 ∧
    AskEvent.cacheStore ∈ (c1Run2 H n).2.2 ∧
    (dictFind (c1Run2 H n).2.1.learner.pattern_learning "successful_queries").map
      List.length = some 2 := by
  have hrun1 := ask_reqHMO_miss_shape H n 0 initGlobalSt rfl
  have hconv1 : (c1Run1 H n).2.1.conversation_history =
      [("default_session",
        [{ role := "user", message := "how many orders", timestamp := 0 },
         { role := "assistant", message := "Count: " ++ toString n, timestamp := 0 }])] := by
    show (ask H (orcCount n) reqHMO 0 initGlobalSt).2.1.conversation_history = _
    rw [hrun1]
    rfl
  have hlearner1 : (c1Run1 H n).2.1.learner =
      cacheResponse initLearner (c1Key1 H) "financial" "text" (some c1Sql) (c1Resp n) 0 := by
    show (ask H (orcCount n) reqHMO 0 initGlobalSt).2.1.learner = _
    rw [hrun1]
    rfl
  have hcache1 : (c1Run1 H n).2.1.learner.cache = [(c1Hash1 H, c1Entry H n)] := by
    rw [hlearner1, cacheResponse_cache]
    rfl
  have hkey2 : (askPrefix H reqHMO 10 (c1Run1 H n).2.1).2.2.2.1 = c1Key2 H n := by
    rw [askPrefix_key_reqHMO, hconv1]
    rfl
  have hhash2 : hashQuery (askPrefix H reqHMO 10 (c1Run1 H n).2.1).2.2.2.1
      "financial" "text" = c1Hash2 H n := by
    rw [hkey2]
    rfl
  have hfind : dictFind (c1Run1 H n).2.1.learner.cache
      (hashQuery (askPrefix H reqHMO 10 (c1Run1 H n).2.1).2.2.2.1 "financial" "text") =
      none := by
    rw [hhash2, hcache1]
    exact dictFind_single_ne _ hne
  have hmiss2 : (askPrefix H reqHMO 10 (c1Run1 H n).2.1).2.2.2.2 = none := by
    rw [askPrefix_cached_reqHMO, getCachedResponse_miss _ _ _ _ _ hfind]
  have hlearn2 : (askPrefix H reqHMO 10 (c1Run1 H n).2.1).1.learner =
      (c1Run1 H n).2.1.learner := by
    rw [askPrefix_learner_reqHMO, getCachedResponse_miss _ _ _ _ _ hfind]
  have hrun2 := ask_reqHMO_miss_shape H n 10 (c1Run1 H n).2.1 hmiss2
  refine ⟨?_, ?_, ?_⟩
  · show AskEvent.cacheHit ∉ (ask H (orcCount n) reqHMO 10 (c1Run1 H n).2.1).2.2
    rw [hrun2]
    exact of_decide_eq_true rfl
  · show AskEvent.cacheStore ∈ (ask H (orcCount n) reqHMO 10 (c1Run1 H n).2.1).2.2
    rw [hrun2]
    exact of_decide_eq_true rfl
  · show (dictFind (ask H (orcCount n) reqHMO 10
        (c1Run1 H n).2.1).2.1.learner.pattern_learning "successful_queries").map
        List.length = some 2
    rw [hrun2]
    show (dictFind (cacheResponse (askPrefix H reqHMO 10 (c1Run1 H n).2.1).1.learner
        (askPrefix H reqHMO 10 (c1Run1 H n).2.1).2.2.2.1 "financial" "text" (some c1Sql)
        (c1Resp n) 10).pattern_learning "successful_queries").map List.length = some 2
    rw [hlearn2, hkey2, hlearner1]
    rfl

/-- Witness for `c1_context_sensitive_key_amended` at
`H = String.length`, `n = 5` (context lengths 15 and 40). -/
theorem c1_context_sensitive_key_amended_witness :
    AskEvent.cacheHit ∉ (c1Run2 String.length 5).2.2 ∧
    AskEvent.cacheStore ∈ (c1Run2 String.length 5).2.2 ∧
    (dictFind (c1Run2 String.length 5).2.1.learner.pattern_learning
      "successful_queries").map List.length = some 2 :=
  c1_context_sensitive_key_amended String.length 5 (by decide)

end ChatData
